import Mathlib

/-!
# Filters for images: kernels and structural elements of `Filter.h`

A shallow embedding of the value-building code of `src/Filter.h`: the
`StructuralElement` constructors, the `Kernel` base class with its copy
constructor, the kernel constructors (`BlurKernel`, `GaussianKernel` and the
five fixed-table kernels) and the constructors of `MatrixFilter` and of the
filters derived from it, each with its default arguments.  The bodies of the
pixel routines (`calcNewPixelColor`, `process`) are not part of `Filter.h`; the
two quantities taken from them, the weighted sum of a window and the magnitude
of two responses, follow the specification.

Conventions of the embedding

* `std::size_t` is a natural number, every `size_t` operation is reduced
  modulo `2^64`; `int` is an integer of 32 bits.  A conversion to `int` keeps
  the low 32 bits (two's complement).  A signed operation whose result leaves
  the `int` range, and a division by zero, have no defined result: the
  embedding returns `none`.
* `float` is an arbitrary field `F` (the theorems take `ℚ` or `ℝ`) with exact
  arithmetic: no rounding, no underflow, no NaN.  A division by zero has no
  value in `F` and gives `none`.  Statements about float weights are therefore
  statements about the exact values; `GaussianKernel.binary32` shows, for the
  divisor `2 * sigma * sigma`, what rounding to binary32 changes.
* `std::unique_ptr<T[]>` is a list; `std::make_unique<T[]>(n)` is the list of
  `n` value-initialised cells.  A read or write outside the list gives `none`.
* `std::make_unique<float[]>(n)` fails (`none`) when the request exceeds
  `PTRDIFF_MAX` bytes, as `new float[n]` then throws; `make_unique<bool[]>`
  fails for a negative `int` length.  Below that limit the embedding lets the
  allocation succeed; the theorems assert that a kernel is produced only for
  radii up to 32767 (an array of at most 16 GiB) and otherwise speak of every
  kernel that the constructor produces.
-/

namespace Filters

/-! ## Machine integers -/

/-- Number of values of `std::size_t`. -/
def SIZE_MOD : Nat := 2 ^ 64

/-- Smallest `int`. -/
def INT_MIN : Int := -2147483648

/-- Largest `int`. -/
def INT_MAX : Int := 2147483647

/-- Sum of two `size_t` values. -/
def szAdd (a b : Nat) : Nat := (a + b) % SIZE_MOD

/-- Product of two `size_t` values. -/
def szMul (a b : Nat) : Nat := (a * b) % SIZE_MOD

/-- Conversion of an `int` to `size_t` (the usual arithmetic conversion of
`x + radius`). -/
def toSizeT (x : Int) : Nat := (x % 18446744073709551616).toNat

/-- Conversion `static_cast<int>` of a `size_t`: the low 32 bits, read in two's
complement. -/
def toInt (n : Nat) : Int :=
  if n % 4294967296 < 2147483648 then ((n % 4294967296 : Nat) : Int)
  else ((n % 4294967296 : Nat) : Int) - 4294967296

/-- Result of an `int` computation whose mathematical value is `v`: defined
only when `v` is representable. -/
def intOp (v : Int) : Option Int :=
  if INT_MIN ≤ v ∧ v ≤ INT_MAX then some v else none

/-- Quotient `a / b` of two `int`s (truncated towards zero). -/
def intDiv (a b : Int) : Option Int :=
  if b = 0 then none else intOp (Int.tdiv a b)

/-- Values `lo, lo+1, .., hi` taken by the variable of
`for (int x = lo; x <= hi; ++x)`; empty when `hi < lo`. -/
def intRange (lo hi : Int) : List Int :=
  (List.range (hi + 1 - lo).toNat).map (fun (i : Nat) => lo + (i : Int))

/-! ## Arrays and field division -/

/-- Store `data[i] = v`. -/
def store {α : Type} (data : List α) (i : Nat) (v : α) : Option (List α) :=
  if i < data.length then some (data.set i v) else none

/-- Load `data[i]`. -/
def load {α : Type} (data : List α) (i : Nat) : Option α := data[i]?

/-- Quotient of two `float`s. -/
def fdiv {F : Type} [Field F] [DecidableEq F] (a b : F) : Option F :=
  if b = 0 then none else some (a / b)

/-! ## StructuralElement -/

/-- Class `StructuralElement`. -/
structure StructuralElement where
  data : List Bool
  size : Int
  line : Int
  row : Int
deriving DecidableEq

/-- Constructor `StructuralElement()`. -/
def StructuralElement.ctor : Option StructuralElement := do
  let size : Int := 9
  let line : Int := 3
  let row : Int := 3
  let data ← (List.range 9).foldlM (fun d i => store d i true) (List.replicate 9 false)
  some { data := data, size := size, line := line, row := row }

/-- Constructor `StructuralElement(bool (&origin)[N], int line)`; `N` is the
length of `origin`.  A negative `size` makes `make_unique<bool[]>(size)` ask
for more than `2^63` cells, which fails. -/
def StructuralElement.ctorMask (origin : List Bool) (line : Int) :
    Option StructuralElement := do
  let size : Int := toInt origin.length
  let row ← intDiv size line
  if size < 0 then none
  let data ← (List.range size.toNat).foldlM
    (fun d i => do store d i (← load origin i)) (List.replicate size.toNat false)
  some { data := data, size := size, line := line, row := row }

/-- Default argument `Matrix = StructuralElement()` of `MatMorph::process`. -/
def MatMorph.process_Matrix : Option StructuralElement := StructuralElement.ctor

/-- Default argument `Matrix = StructuralElement()` of `Opening::process`. -/
def Opening.process_Matrix : Option StructuralElement := StructuralElement.ctor

/-- Default argument `Matrix = StructuralElement()` of `Closing::process`. -/
def Closing.process_Matrix : Option StructuralElement := StructuralElement.ctor

/-! ## Kernel -/

/-- Class `Kernel`. -/
structure Kernel (F : Type) where
  data : List F
  radius : Nat

/-- Method `Kernel::getRadius`. -/
def Kernel.getRadius {F : Type} (k : Kernel F) : Nat := k.radius

/-- Method `Kernel::getSize`. -/
def Kernel.getSize {F : Type} (k : Kernel F) : Nat := szAdd (szMul 2 k.radius) 1

/-- Method `Kernel::getLen`. -/
def Kernel.getLen {F : Type} (k : Kernel F) : Nat := szMul k.getSize k.getSize

/-- Largest size of an object in bytes, `PTRDIFF_MAX`. -/
def PTRDIFF_MAX : Nat := 9223372036854775807

/-- Allocation `std::make_unique<float[]>(n)`: `new float[n]()` yields `n` zeroed cells of
`sizeof(float) = 4` bytes; a request of more than `PTRDIFF_MAX` bytes is refused
(`std::bad_array_new_length` or `std::bad_alloc` leaves the constructor). -/
def make_unique_float {F : Type} [Zero F] (n : Nat) : Option (List F) :=
  if 4 * n ≤ PTRDIFF_MAX then some (List.replicate n 0) else none

/-- Object that `Kernel(radius)` leaves when its allocation is served: `radius` and
`getLen()` zeroed cells. -/
def Kernel.zeroed {F : Type} [Zero F] (radius : Nat) : Kernel F :=
  let self : Kernel F := { data := [], radius := radius }
  { self with data := List.replicate self.getLen 0 }

/-- Constructor `Kernel(std::size_t radius)`: `radius` is initialised first, then
`make_unique<float[]>(getLen())` allocates the cells. -/
def Kernel.ctor {F : Type} [Zero F] (radius : Nat) : Option (Kernel F) := do
  let self : Kernel F := { data := [], radius := radius }
  let data ← make_unique_float self.getLen
  some { self with data := data }

/-- Constructor `BlurKernel(std::size_t radius)`. -/
def BlurKernel {F : Type} [Field F] [DecidableEq F] (radius : Nat) : Option (Kernel F) := do
  let self : Kernel F ← Kernel.ctor radius
  let data ← (List.range self.getLen).foldlM
    (fun d i => do store d i (← fdiv 1 (self.getLen : F))) self.data
  some { self with data := data }

/-- Body of the inner loop of `GaussianKernel`, for loop variables `x`, `y`, on
the state `(data, norm)`.  The float operations are exact operations of `F`. -/
def GaussianKernel.body {F : Type} [Field F] [DecidableEq F] (exp : F → F)
    (self : Kernel F) (sigma : F) (x : Int) (st : List F × F) (y : Int) :
    Option (List F × F) := do
  let idx := szAdd (szMul (szAdd (toSizeT x) self.radius) self.getSize)
    (szAdd (toSizeT y) self.radius)
  let xx ← intOp (x * x)
  let yy ← intOp (y * y)
  let s ← intOp (xx + yy)
  let m ← intOp (-s)
  let q ← fdiv (m : F) (2 * sigma * sigma)
  let data ← store st.1 idx (exp q)
  let w ← load data idx
  some (data, st.2 + w)

/-- Constructor `GaussianKernel(std::size_t radius, float sigma)`; `exp` stands
for `std::exp`. -/
def GaussianKernel {F : Type} [Field F] [DecidableEq F] (exp : F → F)
    (radius : Nat) (sigma : F) : Option (Kernel F) := do
  let self : Kernel F ← Kernel.ctor radius
  let norm : F := 0
  let signed_radius : Int := toInt radius
  let lo ← intOp (-signed_radius)
  let st ← (intRange lo signed_radius).foldlM
    (fun st x => (intRange lo signed_radius).foldlM
      (GaussianKernel.body exp self sigma x) st) (self.data, norm)
  let data ← (List.range self.getLen).foldlM
    (fun d i => do store d i (← fdiv (← load d i) st.2)) st.1
  some { self with data := data }

/-- Modelled from the spec: the response of the convolution operator (§4.3),
`Σ K[i] · sample_i` over the window, the samples listed in the order of the
flat weight array.  The body of `MatrixFilter::calcNewPixelColor` is not part
of `Filter.h`. -/
def weightedSum {F : Type} [Field F] (K : List F) (samples : List F) : F :=
  (List.zipWith (fun w s => w * s) K samples).sum

/-- Copy constructor `Kernel(const Kernel& other)`: delegates to `Kernel(other.radius)`,
then `std::copy` moves `getLen()` cells of `other.data`.  The delegated constructor asks for
as many cells as `other` already holds; its allocation is taken as served. -/
def Kernel.copy {F : Type} [Zero F] (other : Kernel F) : Option (Kernel F) := do
  let self : Kernel F := Kernel.zeroed other.radius
  let data ← (List.range self.getLen).foldlM
    (fun d i => do store d i (← load other.data i)) self.data
  some { self with data := data }

/-- Default argument `radius = 2` of `BlurKernel`. -/
def BlurKernel.radius_default : Nat := 2

/-- Object `BlurKernel()`, constructed without arguments. -/
def BlurKernel.default {F : Type} [Field F] [DecidableEq F] : Option (Kernel F) :=
  BlurKernel BlurKernel.radius_default

/-- Default argument `radius = 2` of `GaussianKernel`. -/
def GaussianKernel.radius_default : Nat := 2

/-- Default argument `sigma = 3.f` of `GaussianKernel`. -/
def GaussianKernel.sigma_default {F : Type} [Field F] : F := 3

/-- Object `GaussianKernel()`, constructed without arguments. -/
def GaussianKernel.default {F : Type} [Field F] [DecidableEq F] (exp : F → F) :
    Option (Kernel F) :=
  GaussianKernel exp GaussianKernel.radius_default GaussianKernel.sigma_default

/-- Constructor `SharpnessKernel(std::size_t radius)`: the nine assignments `data[0] = ..`, ..,
`data[8] = ..` after the base constructor. -/
def SharpnessKernel {F : Type} [Field F] (radius : Nat) : Option (Kernel F) := do
  let self : Kernel F ← Kernel.ctor radius
  let data ← store self.data 0 0
  let data ← store data 1 (-1)
  let data ← store data 2 0
  let data ← store data 3 (-1)
  let data ← store data 4 5
  let data ← store data 5 (-1)
  let data ← store data 6 0
  let data ← store data 7 (-1)
  let data ← store data 8 0
  some { self with data := data }

/-- Default argument `radius = 2` of `SharpnessKernel`. -/
def SharpnessKernel.radius_default : Nat := 2

/-- Object `SharpnessKernel()`, constructed without arguments. -/
def SharpnessKernel.default {F : Type} [Field F] : Option (Kernel F) :=
  SharpnessKernel SharpnessKernel.radius_default

/-- Constructor `NewSharpnessKernel(std::size_t radius)`: the nine assignments `data[0] = ..`, ..,
`data[8] = ..` after the base constructor. -/
def NewSharpnessKernel {F : Type} [Field F] (radius : Nat) : Option (Kernel F) := do
  let self : Kernel F ← Kernel.ctor radius
  let data ← store self.data 0 (-1)
  let data ← store data 1 (-1)
  let data ← store data 2 (-1)
  let data ← store data 3 (-1)
  let data ← store data 4 9
  let data ← store data 5 (-1)
  let data ← store data 6 (-1)
  let data ← store data 7 (-1)
  let data ← store data 8 (-1)
  some { self with data := data }

/-- Default argument `radius = 2` of `NewSharpnessKernel`. -/
def NewSharpnessKernel.radius_default : Nat := 2

/-- Object `NewSharpnessKernel()`, constructed without arguments. -/
def NewSharpnessKernel.default {F : Type} [Field F] : Option (Kernel F) :=
  NewSharpnessKernel NewSharpnessKernel.radius_default

/-- Constructor `EmbossingKernel(std::size_t radius)`: the nine assignments `data[0] = ..`, ..,
`data[8] = ..` after the base constructor. -/
def EmbossingKernel {F : Type} [Field F] (radius : Nat) : Option (Kernel F) := do
  let self : Kernel F ← Kernel.ctor radius
  let data ← store self.data 0 0
  let data ← store data 1 1
  let data ← store data 2 0
  let data ← store data 3 1
  let data ← store data 4 0
  let data ← store data 5 (-1)
  let data ← store data 6 0
  let data ← store data 7 (-1)
  let data ← store data 8 0
  some { self with data := data }

/-- Default argument `radius = 2` of `EmbossingKernel`. -/
def EmbossingKernel.radius_default : Nat := 2

/-- Object `EmbossingKernel()`, constructed without arguments. -/
def EmbossingKernel.default {F : Type} [Field F] : Option (Kernel F) :=
  EmbossingKernel EmbossingKernel.radius_default

/-- Constructor `SobelXKernel(std::size_t radius)`: the nine assignments `data[0] = ..`, ..,
`data[8] = ..` after the base constructor. -/
def SobelXKernel {F : Type} [Field F] (radius : Nat) : Option (Kernel F) := do
  let self : Kernel F ← Kernel.ctor radius
  let data ← store self.data 0 (-1)
  let data ← store data 1 (-2)
  let data ← store data 2 (-1)
  let data ← store data 3 0
  let data ← store data 4 0
  let data ← store data 5 0
  let data ← store data 6 1
  let data ← store data 7 2
  let data ← store data 8 1
  some { self with data := data }

/-- Default argument `radius = 1` of `SobelXKernel`. -/
def SobelXKernel.radius_default : Nat := 1

/-- Object `SobelXKernel()`, constructed without arguments. -/
def SobelXKernel.default {F : Type} [Field F] : Option (Kernel F) :=
  SobelXKernel SobelXKernel.radius_default

/-- Constructor `SobelYKernel(std::size_t radius)`: the nine assignments `data[0] = ..`, ..,
`data[8] = ..` after the base constructor. -/
def SobelYKernel {F : Type} [Field F] (radius : Nat) : Option (Kernel F) := do
  let self : Kernel F ← Kernel.ctor radius
  let data ← store self.data 0 (-1)
  let data ← store data 1 0
  let data ← store data 2 1
  let data ← store data 3 (-2)
  let data ← store data 4 0
  let data ← store data 5 2
  let data ← store data 6 (-1)
  let data ← store data 7 0
  let data ← store data 8 1
  some { self with data := data }

/-- Default argument `radius = 1` of `SobelYKernel`. -/
def SobelYKernel.radius_default : Nat := 1

/-- Object `SobelYKernel()`, constructed without arguments. -/
def SobelYKernel.default {F : Type} [Field F] : Option (Kernel F) :=
  SobelYKernel SobelYKernel.radius_default

/-! ## MatrixFilter and the filters built on it -/

/-- Class `MatrixFilter`: its two kernel members. -/
structure MatrixFilter (F : Type) where
  mKernel : Kernel F
  mKernel2 : Kernel F

/-- Constructor `MatrixFilter(const Kernel& kernel)`: `mKernel` is copied from `kernel`, then
the default member initialiser `mKernel2 = mKernel` copies `mKernel`. -/
def MatrixFilter.ctor1 {F : Type} [Zero F] (kernel : Kernel F) : Option (MatrixFilter F) := do
  let mKernel ← Kernel.copy kernel
  let mKernel2 ← Kernel.copy mKernel
  some { mKernel := mKernel, mKernel2 := mKernel2 }

/-- Constructor `MatrixFilter(const Kernel& kernel1, const Kernel& kernel2)`. -/
def MatrixFilter.ctor2 {F : Type} [Zero F] (kernel1 kernel2 : Kernel F) :
    Option (MatrixFilter F) := do
  let mKernel ← Kernel.copy kernel1
  let mKernel2 ← Kernel.copy kernel2
  some { mKernel := mKernel, mKernel2 := mKernel2 }

/-- Constructor `BlurFilter(std::size_t radius)`. -/
def BlurFilter {F : Type} [Field F] [DecidableEq F] (radius : Nat) : Option (MatrixFilter F) := do
  MatrixFilter.ctor1 (← BlurKernel radius)

/-- Constructor `GaussianFilter(std::size_t radius)`: the kernel is `GaussianKernel(radius)`,
with the default `sigma`. -/
def GaussianFilter {F : Type} [Field F] [DecidableEq F] (exp : F → F) (radius : Nat) :
    Option (MatrixFilter F) := do
  MatrixFilter.ctor1 (← GaussianKernel exp radius GaussianKernel.sigma_default)

/-- Constructor `SharpnessFilter(std::size_t radius)`. -/
def SharpnessFilter {F : Type} [Field F] (radius : Nat) : Option (MatrixFilter F) := do
  MatrixFilter.ctor1 (← SharpnessKernel radius)

/-- Constructor `NewSharpnessFilter(std::size_t radius)`. -/
def NewSharpnessFilter {F : Type} [Field F] (radius : Nat) : Option (MatrixFilter F) := do
  MatrixFilter.ctor1 (← NewSharpnessKernel radius)

/-- Constructor `EmbossingFilter(std::size_t radius)`. -/
def EmbossingFilter {F : Type} [Field F] (radius : Nat) : Option (MatrixFilter F) := do
  MatrixFilter.ctor1 (← EmbossingKernel radius)

/-- Constructor `SobelXFilter(std::size_t radius)`. -/
def SobelXFilter {F : Type} [Field F] (radius : Nat) : Option (MatrixFilter F) := do
  MatrixFilter.ctor1 (← SobelXKernel radius)

/-- Constructor `SobelYFilter(std::size_t radius)`. -/
def SobelYFilter {F : Type} [Field F] (radius : Nat) : Option (MatrixFilter F) := do
  MatrixFilter.ctor1 (← SobelYKernel radius)

/-- Constructor `SobelFilter(std::size_t radius)`. -/
def SobelFilter {F : Type} [Field F] (radius : Nat) : Option (MatrixFilter F) := do
  MatrixFilter.ctor2 (← SobelXKernel radius) (← SobelYKernel radius)

/-- Default argument `radius = 1` of `BlurFilter`. -/
def BlurFilter.radius_default : Nat := 1

/-- Object `BlurFilter()`, constructed without arguments. -/
def BlurFilter.default {F : Type} [Field F] [DecidableEq F] : Option (MatrixFilter F) :=
  BlurFilter BlurFilter.radius_default

/-- Default argument `radius = 1` of `GaussianFilter`. -/
def GaussianFilter.radius_default : Nat := 1

/-- Object `GaussianFilter()`, constructed without arguments. -/
def GaussianFilter.default {F : Type} [Field F] [DecidableEq F] (exp : F → F) :
    Option (MatrixFilter F) :=
  GaussianFilter exp GaussianFilter.radius_default

/-- Default argument `radius = 1` of `SharpnessFilter`. -/
def SharpnessFilter.radius_default : Nat := 1

/-- Object `SharpnessFilter()`, constructed without arguments. -/
def SharpnessFilter.default {F : Type} [Field F] : Option (MatrixFilter F) :=
  SharpnessFilter SharpnessFilter.radius_default

/-- Default argument `radius = 1` of `NewSharpnessFilter`. -/
def NewSharpnessFilter.radius_default : Nat := 1

/-- Object `NewSharpnessFilter()`, constructed without arguments. -/
def NewSharpnessFilter.default {F : Type} [Field F] : Option (MatrixFilter F) :=
  NewSharpnessFilter NewSharpnessFilter.radius_default

/-- Default argument `radius = 1` of `EmbossingFilter`. -/
def EmbossingFilter.radius_default : Nat := 1

/-- Object `EmbossingFilter()`, constructed without arguments. -/
def EmbossingFilter.default {F : Type} [Field F] : Option (MatrixFilter F) :=
  EmbossingFilter EmbossingFilter.radius_default

/-- Default argument `radius = 1` of `SobelXFilter`. -/
def SobelXFilter.radius_default : Nat := 1

/-- Object `SobelXFilter()`, constructed without arguments. -/
def SobelXFilter.default {F : Type} [Field F] : Option (MatrixFilter F) :=
  SobelXFilter SobelXFilter.radius_default

/-- Default argument `radius = 1` of `SobelYFilter`. -/
def SobelYFilter.radius_default : Nat := 1

/-- Object `SobelYFilter()`, constructed without arguments. -/
def SobelYFilter.default {F : Type} [Field F] : Option (MatrixFilter F) :=
  SobelYFilter SobelYFilter.radius_default

/-- Default argument `radius = 1` of `SobelFilter`. -/
def SobelFilter.radius_default : Nat := 1

/-- Object `SobelFilter()`, constructed without arguments. -/
def SobelFilter.default {F : Type} [Field F] : Option (MatrixFilter F) :=
  SobelFilter SobelFilter.radius_default

/-- Modelled from the spec: the two-kernel combination of the convolution operator (§4.3),
`sqrt(response1² + response2²)`, before its clamp to `[0, 255]`; `sqrt` stands for the square
root.  The body of `SobelFilter::calcNewPixelColor` is not part of `Filter.h`. -/
def magnitude {F : Type} [Field F] (sqrt : F → F) (response1 response2 : F) : F :=
  sqrt (response1 * response1 + response2 * response2)

/-- Layout of a kernel `k` of radius `r` that carries the table `t` uncentred: size `2r+1`,
`(2r+1)^2` cells, the table `t` in the first nine cells, every later cell 0, and in
particular 0 in the centre cell `r*(2r+1)+r`. -/
def tableLayout {F : Type} [Field F] (t : List F) (r : Nat) (k : Kernel F) : Prop :=
  k.getRadius = r ∧ k.getSize = 2 * r + 1 ∧ k.data.length = (2 * r + 1) ^ 2 ∧
  k.data.take 9 = t ∧ (∀ i, 9 ≤ i → i < (2 * r + 1) ^ 2 → k.data[i]? = some 0) ∧
  k.data[r * (2 * r + 1) + r]? = some 0

/-! ## Quantities used to describe the `GaussianKernel` loops -/

/-- Unnormalised weight that `GaussianKernel` computes for the loop variables
`x = -radius + a`, `y = -radius + b`. -/
def GaussianKernel.raw {F : Type} [Field F] (exp : F → F) (radius : Nat) (sigma : F)
    (a b : Nat) : F :=
  exp (((-((-(radius : Int) + a) * (-(radius : Int) + a)
    + (-(radius : Int) + b) * (-(radius : Int) + b)) : Int) : F) / (2 * sigma * sigma))

/-- Unnormalised weight of the flat cell `i`. -/
def GaussianKernel.cell {F : Type} [Field F] (exp : F → F) (radius : Nat) (sigma : F)
    (i : Nat) : F :=
  GaussianKernel.raw exp radius sigma (i / (2 * radius + 1)) (i % (2 * radius + 1))

/-- State of the double loop of `GaussianKernel` once the first `m` cells are written. -/
def GaussianKernel.progress {F : Type} [Field F] (E : Nat → F) (len m : Nat) : List F × F :=
  ((List.range len).map (fun i => if i < m then E i else 0), ((List.range m).map E).sum)

/-! ## Loops -/

theorem foldlM_range_inv {σ : Type} (f : σ → Nat → Option σ) (P : Nat → σ → Prop) (n : Nat)
    (s0 : σ) (h0 : P 0 s0)
    (hstep : ∀ i s, i < n → P i s → ∃ s', f s i = some s' ∧ P (i + 1) s') :
    ∃ s, (List.range n).foldlM f s0 = some s ∧ P n s := by
  induction n with
  | zero => exact ⟨s0, rfl, h0⟩
  | succ n ih =>
    obtain ⟨s, hs, hP⟩ := ih (fun i s hi hPi => hstep i s (Nat.lt_succ_of_lt hi) hPi)
    obtain ⟨s', hs', hP'⟩ := hstep n s (Nat.lt_succ_self n) hP
    refine ⟨s', ?_, hP'⟩
    rw [List.range_succ, List.foldlM_append, hs]
    simpa using hs'

/-- A loop whose `i`-th iteration amounts to `data[i] = h i`, over the `n` cells of `d0`. -/
theorem store_loop {α : Type} (f : List α → Nat → Option (List α)) (h : Nat → α) (n : Nat)
    (d0 : List α) (hn : d0.length = n)
    (hf : ∀ d i, i < n → d.length = n → d[i]? = d0[i]? → f d i = some (d.set i (h i))) :
    (List.range n).foldlM f d0 = some ((List.range n).map h) := by
  obtain ⟨s, hs, hlen, hP⟩ := foldlM_range_inv f
    (fun i d => d.length = n ∧ ∀ j, j < n → d[j]? = if j < i then some (h j) else d0[j]?) n d0
    ⟨hn, fun j _ => by simp⟩
    (by
      rintro i d hi ⟨hlen, hP⟩
      refine ⟨d.set i (h i), hf d i hi hlen (by simpa using hP i hi), by simp [hlen], ?_⟩
      intro j hj
      rw [List.getElem?_set]
      by_cases hij : i = j
      · subst hij; simp [hlen, hi]
      · rw [if_neg hij, hP j hj]
        by_cases hji : j < i
        · rw [if_pos hji, if_pos (by omega)]
        · rw [if_neg hji, if_neg (by omega)])
  rw [hs]
  congr 1
  apply List.ext_getElem?
  intro j
  by_cases hj : j < n
  · rw [hP j hj]; simp [hj]
  · rw [List.getElem?_eq_none (by omega), List.getElem?_eq_none (by simp; omega)]

/-! ## Machine arithmetic -/

theorem toInt_of_lt {n : Nat} (h : n < 2147483648) : toInt n = (n : Int) := by
  unfold toInt
  have h1 : n % 4294967296 = n := Nat.mod_eq_of_lt (by omega)
  rw [h1, if_pos h]

theorem getSize_eq {F : Type} (k : Kernel F) (h : 2 * k.radius + 1 < 2 ^ 64) :
    k.getSize = 2 * k.radius + 1 := by
  simp only [Kernel.getSize, szAdd, szMul, SIZE_MOD] at *
  omega

theorem getLen_eq {F : Type} (k : Kernel F) (h : (2 * k.radius + 1) ^ 2 < 2 ^ 64) :
    k.getLen = (2 * k.radius + 1) ^ 2 := by
  have h1 : 2 * k.radius + 1 < 2 ^ 64 := by nlinarith
  simp only [Kernel.getLen, getSize_eq k h1, szMul, SIZE_MOD]
  rw [← pow_two]
  exact Nat.mod_eq_of_lt h

theorem getSize_odd {F : Type} (k : Kernel F) : k.getSize % 2 = 1 := by
  simp only [Kernel.getSize, szAdd, szMul, SIZE_MOD]
  omega

theorem getLen_odd {F : Type} (k : Kernel F) : k.getLen % 2 = 1 := by
  have h := getSize_odd k
  simp only [Kernel.getLen, szMul, SIZE_MOD]
  have h2 : (k.getSize * k.getSize) % 2 = 1 := by
    rw [Nat.mul_mod, h]
  omega

/-! ## Allocation -/

theorem ctor_eq {F : Type} [Zero F] (r : Nat)
    (h : 4 * (Kernel.zeroed r : Kernel F).getLen ≤ PTRDIFF_MAX) :
    (Kernel.ctor r : Option (Kernel F)) = some (Kernel.zeroed r) := by
  have h2 : 4 * (Kernel.mk ([] : List F) r).getLen ≤ PTRDIFF_MAX := h
  simp [Kernel.ctor, make_unique_float, h2, Kernel.zeroed]

theorem ctor_none {F : Type} [Zero F] (r : Nat)
    (h : ¬ 4 * (Kernel.zeroed r : Kernel F).getLen ≤ PTRDIFF_MAX) :
    (Kernel.ctor r : Option (Kernel F)) = none := by
  have h2 : ¬ 4 * (Kernel.mk ([] : List F) r).getLen ≤ PTRDIFF_MAX := h
  simp [Kernel.ctor, make_unique_float, h2]

theorem ctor_some {F : Type} [Zero F] (r : Nat) (k : Kernel F)
    (h : Kernel.ctor r = some k) :
    4 * (Kernel.zeroed r : Kernel F).getLen ≤ PTRDIFF_MAX ∧ k = Kernel.zeroed r := by
  by_cases ha : 4 * (Kernel.zeroed r : Kernel F).getLen ≤ PTRDIFF_MAX
  · rw [ctor_eq r ha] at h
    exact ⟨ha, (Option.some.inj h).symm⟩
  · rw [ctor_none r ha] at h
    exact Option.noConfusion h

theorem alloc_of_le (r : Nat) (hr : r ≤ 32768) {F : Type} [Zero F] :
    4 * (Kernel.zeroed r : Kernel F).getLen ≤ PTRDIFF_MAX := by
  have h : (Kernel.zeroed r : Kernel F).getLen = (2 * r + 1) ^ 2 :=
    getLen_eq _ (by show (2 * r + 1) ^ 2 < 2 ^ 64; nlinarith)
  rw [h, PTRDIFF_MAX]
  nlinarith

/-! ## Closed forms of the constructors -/

theorem BlurKernel_eq {F : Type} [Field F] [DecidableEq F] [CharZero F] (radius : Nat)
    (ha : 4 * (Kernel.zeroed radius : Kernel F).getLen ≤ PTRDIFF_MAX) :
    BlurKernel radius = some (Kernel.mk (List.replicate (Kernel.zeroed radius : Kernel F).getLen
        (1 / ((Kernel.zeroed radius : Kernel F).getLen : F))) radius) := by
  have hlen : ((Kernel.zeroed radius : Kernel F).getLen : F) ≠ 0 := by
    have := getLen_odd (Kernel.zeroed radius : Kernel F)
    exact Nat.cast_ne_zero.mpr (by omega)
  have hd : (Kernel.zeroed radius : Kernel F).data
      = List.replicate (Kernel.zeroed radius : Kernel F).getLen 0 := rfl
  have key := store_loop
    (fun d i => do store d i (← fdiv 1 ((Kernel.zeroed radius : Kernel F).getLen : F)))
    (fun _ => 1 / ((Kernel.zeroed radius : Kernel F).getLen : F))
    (Kernel.zeroed radius : Kernel F).getLen (Kernel.zeroed radius : Kernel F).data
    (by rw [hd, List.length_replicate])
    (by
      intro d i hi hl _
      simp [fdiv, hlen, store, hl, hi])
  simp only [Option.bind_eq_bind] at key
  unfold BlurKernel
  rw [ctor_eq radius ha]
  simp only [Option.bind_eq_bind, Option.some_bind, key]
  simp [Kernel.zeroed, List.map_const']

theorem BlurKernel_unallocated {F : Type} [Field F] [DecidableEq F] (radius : Nat)
    (ha : ¬ 4 * (Kernel.zeroed radius : Kernel F).getLen ≤ PTRDIFF_MAX) :
    (BlurKernel radius : Option (Kernel F)) = none := by
  unfold BlurKernel
  rw [ctor_none radius ha]
  rfl

theorem BlurKernel_some {F : Type} [Field F] [DecidableEq F] [CharZero F] (radius : Nat)
    (k : Kernel F) (hk : BlurKernel radius = some k) :
    k = Kernel.mk (List.replicate (Kernel.zeroed radius : Kernel F).getLen
        (1 / ((Kernel.zeroed radius : Kernel F).getLen : F))) radius := by
  by_cases ha : 4 * (Kernel.zeroed radius : Kernel F).getLen ≤ PTRDIFF_MAX
  · rw [BlurKernel_eq radius ha] at hk
    exact (Option.some.inj hk).symm
  · rw [BlurKernel_unallocated radius ha] at hk
    exact Option.noConfusion hk

theorem ctorMask_eq (origin : List Bool) (line : Int) (hN : origin.length < 2147483648)
    (hl : line ≠ 0) :
    StructuralElement.ctorMask origin line
      = some (StructuralElement.mk origin origin.length line (Int.tdiv origin.length line)) := by
  have hdiv : intDiv (origin.length : Int) line = some (Int.tdiv origin.length line) := by
    have h1 : (Int.tdiv (origin.length : Int) line).natAbs ≤ origin.length := by
      rw [Int.natAbs_tdiv]
      exact Nat.div_le_self _ _
    simp only [intDiv, if_neg hl, intOp, INT_MIN, INT_MAX]
    rw [if_pos]
    omega
  have key := store_loop (fun d i => do store d i (← load origin i))
    (fun i => origin[i]?.getD false) origin.length (List.replicate origin.length false)
    (by simp)
    (by
      intro d i hi hlen _
      simp [load, store, hlen, hi, List.getElem?_eq_getElem hi])
  have hmap : (List.range origin.length).map (fun i => origin[i]?.getD false) = origin := by
    apply List.ext_getElem?
    intro j
    by_cases hj : j < origin.length
    · simp [hj, List.getElem?_eq_getElem hj]
    · rw [List.getElem?_eq_none (by simp; omega), List.getElem?_eq_none (by omega)]
  unfold StructuralElement.ctorMask
  rw [toInt_of_lt hN]
  simp only [Option.bind_eq_bind] at key
  simp [hdiv, key, hmap]

theorem toSizeT_add (r a : Nat) (ha : a < 2 ^ 64) :
    szAdd (toSizeT (-(r : Int) + (a : Int))) r = a := by
  simp only [szAdd, toSizeT, SIZE_MOD]
  omega

theorem intOp_some (v : Int) (h1 : -2147483648 ≤ v) (h2 : v ≤ 2147483647) :
    intOp v = some v := by
  simp [intOp, INT_MIN, INT_MAX, h1, h2]

theorem body_eq {F : Type} [Field F] [DecidableEq F] [CharZero F] (exp : F → F) (r : Nat) (sigma : F)
    (hr : r ≤ 32767) (hs : sigma ≠ 0) (a b : Nat) (ha : a < 2 * r + 1) (hb : b < 2 * r + 1)
    (d : List F) (s : F) (hd : d.length = (2 * r + 1) * (2 * r + 1)) :
    GaussianKernel.body exp (Kernel.zeroed r) sigma (-(r : Int) + a) (d, s) (-(r : Int) + b)
      = some (d.set (a * (2 * r + 1) + b) (GaussianKernel.raw exp r sigma a b),
          s + GaussianKernel.raw exp r sigma a b) := by
  have hsz : (Kernel.zeroed r : Kernel F).getSize = 2 * r + 1 :=
    getSize_eq _ (by show 2 * r + 1 < 2 ^ 64; omega)
  have hrad : (Kernel.zeroed r : Kernel F).radius = r := rfl
  have hidx1 : a * (2 * r + 1) + b < (2 * r + 1) * (2 * r + 1) := by nlinarith
  have hbound : (2 * r + 1) * (2 * r + 1) < 2 ^ 64 := by nlinarith
  have hidx : szAdd (szMul (szAdd (toSizeT (-(r : Int) + a)) r) (2 * r + 1))
      (szAdd (toSizeT (-(r : Int) + b)) r) = a * (2 * r + 1) + b := by
    rw [toSizeT_add r a (by omega), toSizeT_add r b (by omega)]
    have h1 : a * (2 * r + 1) < 2 ^ 64 := by nlinarith
    simp only [szAdd, szMul, SIZE_MOD]
    rw [Nat.mod_eq_of_lt h1, Nat.mod_eq_of_lt (by omega)]
  have hx : ∀ c : Nat, c < 2 * r + 1 →
      0 ≤ (-(r : Int) + c) * (-(r : Int) + c) ∧
      (-(r : Int) + c) * (-(r : Int) + c) ≤ 1073676289 := by
    intro c hc
    constructor
    · exact mul_self_nonneg _
    · nlinarith
  obtain ⟨ha0, ha1⟩ := hx a ha
  obtain ⟨hb0, hb1⟩ := hx b hb
  have h2s : 2 * sigma * sigma ≠ 0 := mul_ne_zero (mul_ne_zero two_ne_zero hs) hs
  unfold GaussianKernel.body
  simp only [hsz, hrad, hidx]
  rw [intOp_some _ (by omega) (by omega), intOp_some _ (by omega) (by omega)]
  simp only [Option.bind_eq_bind, Option.some_bind]
  rw [intOp_some _ (by omega) (by omega)]
  simp only [Option.some_bind]
  rw [intOp_some _ (by omega) (by omega)]
  simp only [Option.some_bind, fdiv, if_neg h2s, store, hd, if_pos hidx1, load]
  rw [List.getElem?_set_self (by omega)]
  rfl

theorem progress_step {F : Type} [Field F] (E : Nat → F) (len m : Nat) (hm : m < len) :
    (((GaussianKernel.progress E len m).1.set m (E m)),
      (GaussianKernel.progress E len m).2 + E m)
      = GaussianKernel.progress E len (m + 1) := by
  simp only [GaussianKernel.progress]
  congr 1
  · apply List.ext_getElem?
    intro j
    rw [List.getElem?_set]
    by_cases hj : j < len
    · by_cases hmj : m = j
      · subst hmj; simp [hj]
      · rw [if_neg hmj]
        simp only [List.getElem?_map, List.getElem?_range hj, Option.map_some']
        by_cases hjm : j < m
        · rw [if_pos hjm, if_pos (by omega)]
        · rw [if_neg hjm, if_neg (by omega)]
    · have hmj : m ≠ j := by omega
      rw [if_neg hmj]
      simp [List.getElem?_eq_none, Nat.le_of_not_lt hj]
  · rw [List.range_succ, List.map_append, List.sum_append]
    simp

theorem inner_loop {F : Type} [Field F] [DecidableEq F] [CharZero F] (exp : F → F) (r : Nat)
    (sigma : F) (hr : r ≤ 32767) (hs : sigma ≠ 0) (a : Nat) (ha : a < 2 * r + 1) :
    (List.range (2 * r + 1)).foldlM
      (fun st (b : Nat) => GaussianKernel.body exp (Kernel.zeroed r) sigma (-(r : Int) + a) st
        (-(r : Int) + (b : Int)))
      (GaussianKernel.progress (GaussianKernel.cell exp r sigma)
        ((2 * r + 1) * (2 * r + 1)) (a * (2 * r + 1)))
      = some (GaussianKernel.progress (GaussianKernel.cell exp r sigma)
        ((2 * r + 1) * (2 * r + 1)) ((a + 1) * (2 * r + 1))) := by
  obtain ⟨st, hst, hP⟩ := foldlM_range_inv
    (fun st (b : Nat) => GaussianKernel.body exp (Kernel.zeroed r) sigma (-(r : Int) + a) st
        (-(r : Int) + (b : Int)))
    (fun b st => st = GaussianKernel.progress (GaussianKernel.cell exp r sigma)
        ((2 * r + 1) * (2 * r + 1)) (a * (2 * r + 1) + b))
    (2 * r + 1) (GaussianKernel.progress (GaussianKernel.cell exp r sigma)
        ((2 * r + 1) * (2 * r + 1)) (a * (2 * r + 1))) rfl
    (by
      intro b st hb hP
      subst hP
      have hcell : GaussianKernel.cell exp r sigma (a * (2 * r + 1) + b)
          = GaussianKernel.raw exp r sigma a b := by
        unfold GaussianKernel.cell
        have h1 : (a * (2 * r + 1) + b) / (2 * r + 1) = a := by
          rw [Nat.mul_comm, Nat.mul_add_div (by omega), Nat.div_eq_of_lt hb, Nat.add_zero]
        have h2 : (a * (2 * r + 1) + b) % (2 * r + 1) = b := by
          rw [Nat.mul_comm, Nat.mul_add_mod, Nat.mod_eq_of_lt hb]
        rw [h1, h2]
      have hm : a * (2 * r + 1) + b < (2 * r + 1) * (2 * r + 1) := by nlinarith
      refine ⟨_, body_eq exp r sigma hr hs a b ha hb _ _ (by simp [GaussianKernel.progress]),
        ?_⟩
      rw [← hcell]
      exact progress_step _ _ _ hm)
  rw [hst, hP]
  congr 2
  ring

theorem outer_loop {F : Type} [Field F] [DecidableEq F] [CharZero F] (exp : F → F) (r : Nat)
    (sigma : F) (hr : r ≤ 32767) (hs : sigma ≠ 0) :
    (intRange (-(r : Int)) r).foldlM
      (fun st x => (intRange (-(r : Int)) r).foldlM
        (GaussianKernel.body exp (Kernel.zeroed r) sigma x) st)
      ((Kernel.zeroed r : Kernel F).data, 0)
      = some (GaussianKernel.progress (GaussianKernel.cell exp r sigma)
        ((2 * r + 1) * (2 * r + 1)) ((2 * r + 1) * (2 * r + 1))) := by
  have hrange : intRange (-(r : Int)) r
      = (List.range (2 * r + 1)).map (fun i : Nat => -(r : Int) + (i : Int)) := by
    unfold intRange
    have : ((r : Int) + 1 - -(r : Int)).toNat = 2 * r + 1 := by omega
    rw [this]
  have hlen : (Kernel.mk [] r : Kernel F).getLen = (2 * r + 1) * (2 * r + 1) := by
    rw [getLen_eq _ (by show (2 * r + 1) ^ 2 < 2 ^ 64; nlinarith), pow_two]
  have hinit : ((Kernel.zeroed r : Kernel F).data, (0 : F))
      = GaussianKernel.progress (GaussianKernel.cell exp r sigma)
        ((2 * r + 1) * (2 * r + 1)) (0 * (2 * r + 1)) := by
    simp only [GaussianKernel.progress, Kernel.zeroed, hlen]
    congr 1
    · apply List.ext_getElem?
      intro j
      by_cases hj : j < (2 * r + 1) * (2 * r + 1)
      · simp [List.getElem?_replicate, hj]
      · simp [List.getElem?_eq_none, Nat.le_of_not_lt hj]
    · simp
  rw [hrange, List.foldlM_map, hinit]
  simp only [List.foldlM_map]
  obtain ⟨st, hst, hP⟩ := foldlM_range_inv
    (fun st a => (List.range (2 * r + 1)).foldlM
      (fun st (b : Nat) => GaussianKernel.body exp (Kernel.zeroed r) sigma (-(r : Int) + a) st
        (-(r : Int) + (b : Int))) st)
    (fun a st => st = GaussianKernel.progress (GaussianKernel.cell exp r sigma)
        ((2 * r + 1) * (2 * r + 1)) (a * (2 * r + 1)))
    (2 * r + 1) (GaussianKernel.progress (GaussianKernel.cell exp r sigma)
        ((2 * r + 1) * (2 * r + 1)) (0 * (2 * r + 1))) rfl
    (by
      intro a st ha hP
      subst hP
      exact ⟨_, inner_loop exp r sigma hr hs a ha, rfl⟩)
  rw [hst, hP]

theorem GaussianKernel_eq {F : Type} [Field F] [DecidableEq F] [CharZero F] (exp : F → F)
    (r : Nat) (sigma : F) (hr : r ≤ 32767) (hs : sigma ≠ 0)
    (hnorm : ((List.range ((2 * r + 1) * (2 * r + 1))).map
      (GaussianKernel.cell exp r sigma)).sum ≠ 0) :
    GaussianKernel exp r sigma = some (Kernel.mk
      ((List.range ((2 * r + 1) * (2 * r + 1))).map (fun i => GaussianKernel.cell exp r sigma i
        / ((List.range ((2 * r + 1) * (2 * r + 1))).map (GaussianKernel.cell exp r sigma)).sum))
      r) := by
  have hlen : (Kernel.zeroed r : Kernel F).getLen = (2 * r + 1) * (2 * r + 1) := by
    rw [getLen_eq _ (by show (2 * r + 1) ^ 2 < 2 ^ 64; nlinarith), pow_two]
    rfl
  have hlo : intOp (-(r : Int)) = some (-(r : Int)) := intOp_some _ (by omega) (by omega)
  have key := store_loop
    (fun d i => do store d i (← fdiv (← load d i)
      ((List.range ((2 * r + 1) * (2 * r + 1))).map (GaussianKernel.cell exp r sigma)).sum))
    (fun i => GaussianKernel.cell exp r sigma i
        / ((List.range ((2 * r + 1) * (2 * r + 1))).map (GaussianKernel.cell exp r sigma)).sum)
    ((2 * r + 1) * (2 * r + 1))
    (GaussianKernel.progress (GaussianKernel.cell exp r sigma)
        ((2 * r + 1) * (2 * r + 1)) ((2 * r + 1) * (2 * r + 1))).1
    (by simp [GaussianKernel.progress])
    (by
      intro d i hi hl hdi
      have hdi2 : d[i]? = some (GaussianKernel.cell exp r sigma i) := by
        rw [hdi]
        simp [GaussianKernel.progress, List.getElem?_range hi, hi]
      simp [load, hdi2, fdiv, hnorm, store, hl, hi])
  unfold GaussianKernel
  rw [ctor_eq r (alloc_of_le r (by omega))]
  simp only [toInt_of_lt (show r < 2147483648 by omega), hlo, Option.bind_eq_bind,
    Option.some_bind, outer_loop exp r sigma hr hs, hlen]
  simp only [Option.bind_eq_bind] at key
  simp only [GaussianKernel.progress] at key ⊢
  rw [key]
  rfl

theorem sum_map_div {F : Type} [Field F] (E : Nat → F) (c : F) (l : List Nat) :
    (l.map (fun i => E i / c)).sum = (l.map E).sum / c := by
  induction l with
  | nil => simp
  | cons a t ih => simp [ih, add_div]

theorem list_sum_range {F : Type} [Field F] (E : Nat → F) (m : Nat) :
    ((List.range m).map E).sum = ∑ i in Finset.range m, E i := by
  induction m with
  | zero => simp
  | succ m ih => rw [List.range_succ, List.map_append, List.sum_append, ih,
      Finset.sum_range_succ]; simp

theorem cell_sum_pos (r : Nat) (sigma : ℝ) :
    0 < ((List.range ((2 * r + 1) * (2 * r + 1))).map
      (GaussianKernel.cell Real.exp r sigma)).sum := by
  rw [list_sum_range]
  apply Finset.sum_pos
  · intro i _
    exact Real.exp_pos _
  · exact ⟨0, by simp⟩

theorem GaussianKernel_SIZE_MAX (sigma : ℝ) :
    GaussianKernel Real.exp 18446744073709551615 sigma = none := by
  have hlen : (Kernel.zeroed 18446744073709551615 : Kernel ℝ).getLen = 1 := by
    simp [Kernel.getLen, Kernel.getSize, Kernel.zeroed, szMul, szAdd, SIZE_MOD]
  have hdata : (Kernel.zeroed 18446744073709551615 : Kernel ℝ).data = [0] := by
    have h : (Kernel.mk [] 18446744073709551615 : Kernel ℝ).getLen = 1 := hlen
    simp [Kernel.zeroed, h]
  have hint : toInt 18446744073709551615 = -1 := by decide
  have hrange : intRange 1 (-1) = [] := by decide
  unfold GaussianKernel
  rw [ctor_eq _ (by rw [hlen]; decide)]
  have hone : List.range 1 = [0] := rfl
  simp [hlen, hdata, hint, intOp, INT_MIN, INT_MAX, hrange, load, fdiv, hone]

theorem intRange_cons (lo hi : Int) (h : lo ≤ hi) :
    intRange lo hi = lo :: intRange (lo + 1) hi := by
  unfold intRange
  obtain ⟨n, hn⟩ : ∃ n : Nat, (hi + 1 - lo).toNat = n + 1 := ⟨(hi - lo).toNat, by omega⟩
  have hn2 : (hi + 1 - (lo + 1)).toNat = n := by omega
  rw [hn, hn2, List.range_succ_eq_map]
  simp only [List.map_cons, List.map_map, Nat.cast_zero, add_zero]
  congr 1
  apply List.map_congr_left
  intro a _
  simp only [Function.comp, Nat.succ_eq_add_one, Nat.cast_add, Nat.cast_one]
  ring

/-- At radius 32768 the first iteration (`x = y = -32768`) computes `x * x + y * y = 2^31`,
which is not an `int`: the bound `r ≤ 32767` of the closed form is sharp. -/
theorem GaussianKernel_overflow (sigma : ℝ) : GaussianKernel Real.exp 32768 sigma = none := by
  have hint : toInt 32768 = 32768 := by decide
  have hlo : intOp (-32768) = some (-32768) := by decide
  have h1 : intOp (-32768 * -32768) = some 1073741824 := by decide
  have h2 : intOp (1073741824 + 1073741824) = none := by decide
  unfold GaussianKernel
  rw [ctor_eq _ (alloc_of_le 32768 (by norm_num))]
  simp only [hint, hlo, Option.bind_eq_bind, Option.some_bind]
  rw [intRange_cons (-32768) 32768 (by norm_num)]
  simp only [List.foldlM_cons, GaussianKernel.body, h1, h2, Option.bind_eq_bind,
    Option.some_bind, Option.none_bind]

/-! ## Rounding to binary32 -/

theorem zeroed_getLen {F : Type} [Zero F] (k : Kernel F) :
    (Kernel.zeroed k.radius : Kernel F).getLen = k.getLen := rfl

theorem zeroed_data {F : Type} [Zero F] (r : Nat) :
    (Kernel.zeroed r : Kernel F).data = List.replicate (Kernel.zeroed r : Kernel F).getLen 0 := rfl

theorem copy_eq {F : Type} [Zero F] (k : Kernel F) (hk : k.data.length = k.getLen) :
    Kernel.copy k = some k := by
  have key := store_loop (fun d i => do store d i (← load k.data i))
    (fun i => k.data[i]?.getD 0) k.getLen (Kernel.zeroed k.radius : Kernel F).data
    (by rw [zeroed_data, List.length_replicate, zeroed_getLen])
    (by
      intro d i hi hlen _
      have hi2 : i < k.data.length := by omega
      simp [load, store, hlen, hi, List.getElem?_eq_getElem hi2])
  have hmap : (List.range k.getLen).map (fun i => k.data[i]?.getD 0) = k.data := by
    apply List.ext_getElem?
    intro j
    by_cases hj : j < k.getLen
    · have hj2 : j < k.data.length := by omega
      simp [hj, List.getElem?_eq_getElem hj2]
    · rw [List.getElem?_eq_none (by simp; omega), List.getElem?_eq_none (by omega)]
  simp only [Option.bind_eq_bind] at key
  unfold Kernel.copy
  simp only [zeroed_getLen, Option.bind_eq_bind, key, hmap, Option.some_bind]
  cases k
  rfl

theorem ctor1_eq {F : Type} [Zero F] (k : Kernel F) (hk : k.data.length = k.getLen) :
    MatrixFilter.ctor1 k = some (MatrixFilter.mk k k) := by
  simp [MatrixFilter.ctor1, copy_eq k hk]

theorem ctor2_eq {F : Type} [Zero F] (k1 k2 : Kernel F) (h1 : k1.data.length = k1.getLen)
    (h2 : k2.data.length = k2.getLen) :
    MatrixFilter.ctor2 k1 k2 = some (MatrixFilter.mk k1 k2) := by
  simp [MatrixFilter.ctor2, copy_eq k1 h1, copy_eq k2 h2]

/-! ## Fixed-table kernels -/

theorem getLen_zeroed {F : Type} [Zero F] (r : Nat) (h : (2 * r + 1) ^ 2 < 2 ^ 64) :
    (Kernel.zeroed r : Kernel F).getLen = (2 * r + 1) ^ 2 := getLen_eq _ h

theorem getLen_zeroed_one {F : Type} [Zero F] : (Kernel.zeroed 1 : Kernel F).getLen = 9 :=
  getLen_zeroed 1 (by norm_num)

theorem getLen_zeroed_two {F : Type} [Zero F] : (Kernel.zeroed 2 : Kernel F).getLen = 25 :=
  getLen_zeroed 2 (by norm_num)

theorem getLen_zeroed_zero {F : Type} [Zero F] : (Kernel.zeroed 0 : Kernel F).getLen = 1 :=
  getLen_zeroed 0 (by norm_num)

theorem getLen_zeroed_wrap {F : Type} [Zero F] :
    (Kernel.zeroed 9223372036854775808 : Kernel F).getLen = 1 := by
  show szMul (szAdd (szMul 2 9223372036854775808) 1) (szAdd (szMul 2 9223372036854775808) 1) = 1
  norm_num [szMul, szAdd, SIZE_MOD]

theorem nine_le_getLen {F : Type} [Zero F] (r : Nat) (h1 : 1 ≤ r)
    (h : (2 * r + 1) ^ 2 < 2 ^ 64) : 9 ≤ (Kernel.zeroed r : Kernel F).getLen := by
  rw [getLen_zeroed r h]
  nlinarith

theorem table_wellformed {F : Type} [Field F] (t : List F) (ht : t.length = 9) (r : Nat)
    (h : 9 ≤ (Kernel.zeroed r : Kernel F).getLen) :
    (Kernel.mk (t ++ List.replicate ((Kernel.zeroed r : Kernel F).getLen - 9) 0) r).data.length
      = (Kernel.mk (t ++ List.replicate ((Kernel.zeroed r : Kernel F).getLen - 9) 0) r).getLen := by
  have hlen : (Kernel.mk (t ++ List.replicate ((Kernel.zeroed r : Kernel F).getLen - 9) 0)
      r).getLen = (Kernel.zeroed r : Kernel F).getLen := rfl
  rw [hlen]
  simp only [List.length_append, List.length_replicate, ht]
  omega

theorem table_layout {F : Type} [Field F] (t : List F) (ht : t.length = 9) (r : Nat)
    (hr : 2 ≤ r) (hb : (2 * r + 1) ^ 2 < 2 ^ 64) :
    tableLayout t r
      (Kernel.mk (t ++ List.replicate ((Kernel.zeroed r : Kernel F).getLen - 9) 0) r) := by
  have hlen := @getLen_zeroed F _ r hb
  have h9 : 9 ≤ (2 * r + 1) ^ 2 := by nlinarith
  have hzero : ∀ i, 9 ≤ i → i < (2 * r + 1) ^ 2 →
      (t ++ List.replicate ((2 * r + 1) ^ 2 - 9) (0 : F))[i]? = some 0 := by
    intro i h1 h2
    rw [List.getElem?_append_right (by omega), List.getElem?_replicate, if_pos (by omega)]
  refine ⟨rfl, getSize_eq _ (by show 2 * r + 1 < 2 ^ 64; nlinarith), ?_, ?_, ?_, ?_⟩
  · simp only [hlen, List.length_append, List.length_replicate, ht]
    omega
  · simp only [hlen]
    rw [List.take_append_of_le_length (by omega), List.take_of_length_le (by omega)]
  · simp only [hlen]
    exact hzero
  · simp only [hlen]
    exact hzero _ (by nlinarith) (by nlinarith)

theorem SharpnessKernel_eq {F : Type} [Field F] (r : Nat)
    (ha : 4 * (Kernel.zeroed r : Kernel F).getLen ≤ PTRDIFF_MAX)
    (h : 9 ≤ (Kernel.zeroed r : Kernel F).getLen) :
    (SharpnessKernel r : Option (Kernel F)) = some (Kernel.mk (([0, -1, 0, -1, 5, -1, 0, -1, 0] : List F)
      ++ List.replicate ((Kernel.zeroed r : Kernel F).getLen - 9) 0) r) := by
  obtain ⟨m, hm⟩ : ∃ m, (Kernel.zeroed r : Kernel F).getLen = m + 9 :=
    ⟨(Kernel.zeroed r : Kernel F).getLen - 9, by omega⟩
  unfold SharpnessKernel
  rw [ctor_eq r ha]
  simp [zeroed_data, hm, store, List.replicate_succ]
  rfl

theorem SharpnessKernel_none {F : Type} [Field F] (r : Nat)
    (h : (Kernel.zeroed r : Kernel F).getLen = 1) :
    (SharpnessKernel r : Option (Kernel F)) = none := by
  unfold SharpnessKernel
  rw [@ctor_eq F _ r (by rw [h]; decide)]
  simp [zeroed_data, h, store]

theorem SharpnessKernel_unallocated {F : Type} [Field F] (r : Nat)
    (ha : ¬ 4 * (Kernel.zeroed r : Kernel F).getLen ≤ PTRDIFF_MAX) :
    (SharpnessKernel r : Option (Kernel F)) = none := by
  unfold SharpnessKernel
  rw [ctor_none r ha]
  rfl

theorem SharpnessKernel_some {F : Type} [Field F] (r : Nat) (k : Kernel F)
    (h : 9 ≤ (Kernel.zeroed r : Kernel F).getLen) (hk : SharpnessKernel r = some k) :
    k = Kernel.mk (([0, -1, 0, -1, 5, -1, 0, -1, 0] : List F)
      ++ List.replicate ((Kernel.zeroed r : Kernel F).getLen - 9) 0) r := by
  by_cases ha : 4 * (Kernel.zeroed r : Kernel F).getLen ≤ PTRDIFF_MAX
  · rw [SharpnessKernel_eq r ha h] at hk
    exact (Option.some.inj hk).symm
  · rw [SharpnessKernel_unallocated r ha] at hk
    exact Option.noConfusion hk

theorem SharpnessKernel_one {F : Type} [Field F] :
    (SharpnessKernel 1 : Option (Kernel F)) = some (Kernel.mk [0, -1, 0, -1, 5, -1, 0, -1, 0] 1) := by
  rw [SharpnessKernel_eq 1 (alloc_of_le 1 (by norm_num)) (by rw [getLen_zeroed_one])]
  simp [getLen_zeroed_one]

theorem NewSharpnessKernel_eq {F : Type} [Field F] (r : Nat)
    (ha : 4 * (Kernel.zeroed r : Kernel F).getLen ≤ PTRDIFF_MAX)
    (h : 9 ≤ (Kernel.zeroed r : Kernel F).getLen) :
    (NewSharpnessKernel r : Option (Kernel F)) = some (Kernel.mk (([-1, -1, -1, -1, 9, -1, -1, -1, -1] : List F)
      ++ List.replicate ((Kernel.zeroed r : Kernel F).getLen - 9) 0) r) := by
  obtain ⟨m, hm⟩ : ∃ m, (Kernel.zeroed r : Kernel F).getLen = m + 9 :=
    ⟨(Kernel.zeroed r : Kernel F).getLen - 9, by omega⟩
  unfold NewSharpnessKernel
  rw [ctor_eq r ha]
  simp [zeroed_data, hm, store, List.replicate_succ]
  rfl

theorem NewSharpnessKernel_none {F : Type} [Field F] (r : Nat)
    (h : (Kernel.zeroed r : Kernel F).getLen = 1) :
    (NewSharpnessKernel r : Option (Kernel F)) = none := by
  unfold NewSharpnessKernel
  rw [@ctor_eq F _ r (by rw [h]; decide)]
  simp [zeroed_data, h, store]

theorem NewSharpnessKernel_unallocated {F : Type} [Field F] (r : Nat)
    (ha : ¬ 4 * (Kernel.zeroed r : Kernel F).getLen ≤ PTRDIFF_MAX) :
    (NewSharpnessKernel r : Option (Kernel F)) = none := by
  unfold NewSharpnessKernel
  rw [ctor_none r ha]
  rfl

theorem NewSharpnessKernel_some {F : Type} [Field F] (r : Nat) (k : Kernel F)
    (h : 9 ≤ (Kernel.zeroed r : Kernel F).getLen) (hk : NewSharpnessKernel r = some k) :
    k = Kernel.mk (([-1, -1, -1, -1, 9, -1, -1, -1, -1] : List F)
      ++ List.replicate ((Kernel.zeroed r : Kernel F).getLen - 9) 0) r := by
  by_cases ha : 4 * (Kernel.zeroed r : Kernel F).getLen ≤ PTRDIFF_MAX
  · rw [NewSharpnessKernel_eq r ha h] at hk
    exact (Option.some.inj hk).symm
  · rw [NewSharpnessKernel_unallocated r ha] at hk
    exact Option.noConfusion hk

theorem NewSharpnessKernel_one {F : Type} [Field F] :
    (NewSharpnessKernel 1 : Option (Kernel F)) = some (Kernel.mk [-1, -1, -1, -1, 9, -1, -1, -1, -1] 1) := by
  rw [NewSharpnessKernel_eq 1 (alloc_of_le 1 (by norm_num)) (by rw [getLen_zeroed_one])]
  simp [getLen_zeroed_one]

theorem EmbossingKernel_eq {F : Type} [Field F] (r : Nat)
    (ha : 4 * (Kernel.zeroed r : Kernel F).getLen ≤ PTRDIFF_MAX)
    (h : 9 ≤ (Kernel.zeroed r : Kernel F).getLen) :
    (EmbossingKernel r : Option (Kernel F)) = some (Kernel.mk (([0, 1, 0, 1, 0, -1, 0, -1, 0] : List F)
      ++ List.replicate ((Kernel.zeroed r : Kernel F).getLen - 9) 0) r) := by
  obtain ⟨m, hm⟩ : ∃ m, (Kernel.zeroed r : Kernel F).getLen = m + 9 :=
    ⟨(Kernel.zeroed r : Kernel F).getLen - 9, by omega⟩
  unfold EmbossingKernel
  rw [ctor_eq r ha]
  simp [zeroed_data, hm, store, List.replicate_succ]
  rfl

theorem EmbossingKernel_none {F : Type} [Field F] (r : Nat)
    (h : (Kernel.zeroed r : Kernel F).getLen = 1) :
    (EmbossingKernel r : Option (Kernel F)) = none := by
  unfold EmbossingKernel
  rw [@ctor_eq F _ r (by rw [h]; decide)]
  simp [zeroed_data, h, store]

theorem EmbossingKernel_unallocated {F : Type} [Field F] (r : Nat)
    (ha : ¬ 4 * (Kernel.zeroed r : Kernel F).getLen ≤ PTRDIFF_MAX) :
    (EmbossingKernel r : Option (Kernel F)) = none := by
  unfold EmbossingKernel
  rw [ctor_none r ha]
  rfl

theorem EmbossingKernel_some {F : Type} [Field F] (r : Nat) (k : Kernel F)
    (h : 9 ≤ (Kernel.zeroed r : Kernel F).getLen) (hk : EmbossingKernel r = some k) :
    k = Kernel.mk (([0, 1, 0, 1, 0, -1, 0, -1, 0] : List F)
      ++ List.replicate ((Kernel.zeroed r : Kernel F).getLen - 9) 0) r := by
  by_cases ha : 4 * (Kernel.zeroed r : Kernel F).getLen ≤ PTRDIFF_MAX
  · rw [EmbossingKernel_eq r ha h] at hk
    exact (Option.some.inj hk).symm
  · rw [EmbossingKernel_unallocated r ha] at hk
    exact Option.noConfusion hk

theorem EmbossingKernel_one {F : Type} [Field F] :
    (EmbossingKernel 1 : Option (Kernel F)) = some (Kernel.mk [0, 1, 0, 1, 0, -1, 0, -1, 0] 1) := by
  rw [EmbossingKernel_eq 1 (alloc_of_le 1 (by norm_num)) (by rw [getLen_zeroed_one])]
  simp [getLen_zeroed_one]

theorem SobelXKernel_eq {F : Type} [Field F] (r : Nat)
    (ha : 4 * (Kernel.zeroed r : Kernel F).getLen ≤ PTRDIFF_MAX)
    (h : 9 ≤ (Kernel.zeroed r : Kernel F).getLen) :
    (SobelXKernel r : Option (Kernel F)) = some (Kernel.mk (([-1, -2, -1, 0, 0, 0, 1, 2, 1] : List F)
      ++ List.replicate ((Kernel.zeroed r : Kernel F).getLen - 9) 0) r) := by
  obtain ⟨m, hm⟩ : ∃ m, (Kernel.zeroed r : Kernel F).getLen = m + 9 :=
    ⟨(Kernel.zeroed r : Kernel F).getLen - 9, by omega⟩
  unfold SobelXKernel
  rw [ctor_eq r ha]
  simp [zeroed_data, hm, store, List.replicate_succ]
  rfl

theorem SobelXKernel_none {F : Type} [Field F] (r : Nat)
    (h : (Kernel.zeroed r : Kernel F).getLen = 1) :
    (SobelXKernel r : Option (Kernel F)) = none := by
  unfold SobelXKernel
  rw [@ctor_eq F _ r (by rw [h]; decide)]
  simp [zeroed_data, h, store]

theorem SobelXKernel_unallocated {F : Type} [Field F] (r : Nat)
    (ha : ¬ 4 * (Kernel.zeroed r : Kernel F).getLen ≤ PTRDIFF_MAX) :
    (SobelXKernel r : Option (Kernel F)) = none := by
  unfold SobelXKernel
  rw [ctor_none r ha]
  rfl

theorem SobelXKernel_some {F : Type} [Field F] (r : Nat) (k : Kernel F)
    (h : 9 ≤ (Kernel.zeroed r : Kernel F).getLen) (hk : SobelXKernel r = some k) :
    k = Kernel.mk (([-1, -2, -1, 0, 0, 0, 1, 2, 1] : List F)
      ++ List.replicate ((Kernel.zeroed r : Kernel F).getLen - 9) 0) r := by
  by_cases ha : 4 * (Kernel.zeroed r : Kernel F).getLen ≤ PTRDIFF_MAX
  · rw [SobelXKernel_eq r ha h] at hk
    exact (Option.some.inj hk).symm
  · rw [SobelXKernel_unallocated r ha] at hk
    exact Option.noConfusion hk

theorem SobelXKernel_one {F : Type} [Field F] :
    (SobelXKernel 1 : Option (Kernel F)) = some (Kernel.mk [-1, -2, -1, 0, 0, 0, 1, 2, 1] 1) := by
  rw [SobelXKernel_eq 1 (alloc_of_le 1 (by norm_num)) (by rw [getLen_zeroed_one])]
  simp [getLen_zeroed_one]

theorem SobelYKernel_eq {F : Type} [Field F] (r : Nat)
    (ha : 4 * (Kernel.zeroed r : Kernel F).getLen ≤ PTRDIFF_MAX)
    (h : 9 ≤ (Kernel.zeroed r : Kernel F).getLen) :
    (SobelYKernel r : Option (Kernel F)) = some (Kernel.mk (([-1, 0, 1, -2, 0, 2, -1, 0, 1] : List F)
      ++ List.replicate ((Kernel.zeroed r : Kernel F).getLen - 9) 0) r) := by
  obtain ⟨m, hm⟩ : ∃ m, (Kernel.zeroed r : Kernel F).getLen = m + 9 :=
    ⟨(Kernel.zeroed r : Kernel F).getLen - 9, by omega⟩
  unfold SobelYKernel
  rw [ctor_eq r ha]
  simp [zeroed_data, hm, store, List.replicate_succ]
  rfl

theorem SobelYKernel_none {F : Type} [Field F] (r : Nat)
    (h : (Kernel.zeroed r : Kernel F).getLen = 1) :
    (SobelYKernel r : Option (Kernel F)) = none := by
  unfold SobelYKernel
  rw [@ctor_eq F _ r (by rw [h]; decide)]
  simp [zeroed_data, h, store]

theorem SobelYKernel_unallocated {F : Type} [Field F] (r : Nat)
    (ha : ¬ 4 * (Kernel.zeroed r : Kernel F).getLen ≤ PTRDIFF_MAX) :
    (SobelYKernel r : Option (Kernel F)) = none := by
  unfold SobelYKernel
  rw [ctor_none r ha]
  rfl

theorem SobelYKernel_some {F : Type} [Field F] (r : Nat) (k : Kernel F)
    (h : 9 ≤ (Kernel.zeroed r : Kernel F).getLen) (hk : SobelYKernel r = some k) :
    k = Kernel.mk (([-1, 0, 1, -2, 0, 2, -1, 0, 1] : List F)
      ++ List.replicate ((Kernel.zeroed r : Kernel F).getLen - 9) 0) r := by
  by_cases ha : 4 * (Kernel.zeroed r : Kernel F).getLen ≤ PTRDIFF_MAX
  · rw [SobelYKernel_eq r ha h] at hk
    exact (Option.some.inj hk).symm
  · rw [SobelYKernel_unallocated r ha] at hk
    exact Option.noConfusion hk

theorem SobelYKernel_one {F : Type} [Field F] :
    (SobelYKernel 1 : Option (Kernel F)) = some (Kernel.mk [-1, 0, 1, -2, 0, 2, -1, 0, 1] 1) := by
  rw [SobelYKernel_eq 1 (alloc_of_le 1 (by norm_num)) (by rw [getLen_zeroed_one])]
  simp [getLen_zeroed_one]

theorem BlurKernel_wellformed {F : Type} [Field F] (r : Nat) (c : F) :
    (Kernel.mk (List.replicate (Kernel.zeroed r : Kernel F).getLen c) r).data.length
      = (Kernel.mk (List.replicate (Kernel.zeroed r : Kernel F).getLen c) r).getLen := by
  simp only [List.length_replicate]
  rfl

theorem GaussianKernel_wellformed {F : Type} [Field F] (r : Nat) (hr : r ≤ 32767)
    (g : Nat → F) :
    (Kernel.mk ((List.range ((2 * r + 1) * (2 * r + 1))).map g) r).data.length
      = (Kernel.mk ((List.range ((2 * r + 1) * (2 * r + 1))).map g) r).getLen := by
  have h : (Kernel.mk ((List.range ((2 * r + 1) * (2 * r + 1))).map g) r).getLen
      = (2 * r + 1) ^ 2 := getLen_eq _ (by show (2 * r + 1) ^ 2 < 2 ^ 64; nlinarith)
  rw [h, pow_two]
  simp

theorem ctorMask_huge (origin : List Bool) (h : origin.length = 2147483648) :
    StructuralElement.ctorMask origin 1 = none := by
  have hint : toInt 2147483648 = -2147483648 := by decide
  have hdiv : intDiv (-2147483648) 1 = some (-2147483648) := by decide
  unfold StructuralElement.ctorMask
  simp [h, hint, hdiv]

/-! ## Claims -/

/-- C1 (as amended): for every radius `r ≤ 32767` and every real `sigma ≠ 0`,
`GaussianKernel(r, sigma)` stores `(2r+1)^2` weights and they sum to 1 (exact real
arithmetic in place of float). -/
theorem GaussianKernel_sum_one (r : Nat) (sigma : ℝ) (hr : r ≤ 32767) (hs : sigma ≠ 0) :
    ∃ k : Kernel ℝ, GaussianKernel Real.exp r sigma = some k ∧
      k.data.length = (2 * r + 1) ^ 2 ∧ k.data.sum = 1 := by
  have hpos := cell_sum_pos r sigma
  refine ⟨_, GaussianKernel_eq Real.exp r sigma hr hs (ne_of_gt hpos), ?_, ?_⟩
  · simp [pow_two]
  · simp only []
    rw [sum_map_div]
    exact div_self (ne_of_gt hpos)

/-- Witness of C1: radius 1, sigma 3. -/
theorem GaussianKernel_sum_one_witness :
    ((1 : Nat) ≤ 32767 ∧ (3 : ℝ) ≠ 0) ∧
    ∃ k : Kernel ℝ, GaussianKernel Real.exp 1 3 = some k ∧
      k.data.length = (2 * 1 + 1) ^ 2 ∧ k.data.sum = 1 :=
  ⟨⟨by norm_num, by norm_num⟩, GaussianKernel_sum_one 1 3 (by norm_num) (by norm_num)⟩

/-- C1 (as stated) fails at radius `2^64 - 1`: `getLen()` wraps to 1, `static_cast<int>`
gives `-1`, the double loop is empty, `norm` stays 0 and the single weight is `0 / 0`; no
kernel with weights of sum 1 results. -/
theorem GaussianKernel_sum_one_counterexample :
    ¬ ∃ k : Kernel ℝ, GaussianKernel Real.exp 18446744073709551615 3 = some k ∧
      k.data.sum = 1 := by
  rintro ⟨k, hk, _⟩
  rw [GaussianKernel_SIZE_MAX] at hk
  exact Option.noConfusion hk

/-- C3 (as amended): for every radius `r` with `(2r+1)^2 < 2^64`, every `BlurKernel(r)`
that the constructor produces has radius `r` and exactly `(2r+1)^2` weights, each equal to
`1/(2r+1)^2` (exact rational arithmetic in place of float); the constructor produces the
kernel for every `r ≤ 32767`. -/
theorem BlurKernel_weights (r : Nat) (hr : (2 * r + 1) ^ 2 < 2 ^ 64) :
    (∀ k : Kernel ℚ, BlurKernel r = some k → k.getRadius = r ∧
      k.data.length = (2 * r + 1) ^ 2 ∧
      ∀ i, i < (2 * r + 1) ^ 2 → k.data[i]? = some (1 / ((2 * (r : ℚ) + 1) ^ 2))) ∧
    (r ≤ 32767 → ∃ k : Kernel ℚ, BlurKernel r = some k) := by
  have hlen : (Kernel.zeroed r : Kernel ℚ).getLen = (2 * r + 1) ^ 2 := getLen_eq _ hr
  refine ⟨?_, fun h => ⟨_, BlurKernel_eq r (alloc_of_le r (by omega))⟩⟩
  intro k hk
  rw [BlurKernel_some r k hk]
  refine ⟨rfl, ?_, ?_⟩
  · simp [hlen]
  · intro i hi
    simp only [hlen, List.getElem?_replicate, if_pos hi]
    push_cast
    rfl

/-- Witness of C3 at radius 1: the kernel is produced and has nine weights `1/9`. -/
theorem BlurKernel_weights_witness :
    ((2 * 1 + 1) ^ 2 < 2 ^ 64 ∧ 1 ≤ 32767) ∧
    ∃ k : Kernel ℚ, BlurKernel 1 = some k ∧ k.getRadius = 1 ∧
      k.data.length = (2 * 1 + 1) ^ 2 ∧
      ∀ i, i < (2 * 1 + 1) ^ 2 → k.data[i]? = some (1 / ((2 * ((1 : Nat) : ℚ) + 1) ^ 2)) :=
  ⟨⟨by norm_num, by norm_num⟩,
    ((BlurKernel_weights 1 (by norm_num)).2 (by norm_num)).elim
      (fun k hk => ⟨k, hk, (BlurKernel_weights 1 (by norm_num)).1 k hk⟩)⟩

/-- C3 (as stated) fails at radius `2^63`: `2r+1` wraps to 1, the kernel has one weight,
equal to 1, not `(2^64+1)^2` weights. -/
theorem BlurKernel_weights_counterexample :
    ∃ k : Kernel ℚ, BlurKernel 9223372036854775808 = some k ∧ k.data = [1] ∧
      k.data.length ≠ (2 * 9223372036854775808 + 1) ^ 2 := by
  have hlen : (Kernel.zeroed 9223372036854775808 : Kernel ℚ).getLen = 1 := by
    simp [Kernel.getLen, Kernel.getSize, Kernel.zeroed, szMul, szAdd, SIZE_MOD]
  refine ⟨_, BlurKernel_eq _ (by rw [hlen]; decide), ?_, ?_⟩
  · simp [hlen]
  · simp [hlen]

/-- C5 (as amended): the default constructor yields `size == line * row`; the mask
constructor, for a mask of length `N < 2^31` and a declared `line ≠ 0`, yields an
element with `size == line * row` exactly when `line` divides `N`. -/
theorem StructuralElement_size_invariant (origin : List Bool) (line : Int)
    (hN : origin.length < 2147483648) (hl : line ≠ 0) :
    (∃ se, StructuralElement.ctor = some se ∧ se.size = se.line * se.row) ∧
    ∃ se, StructuralElement.ctorMask origin line = some se ∧
      (se.size = se.line * se.row ↔ line ∣ (origin.length : Int)) := by
  refine ⟨⟨_, rfl, by decide⟩, _, ctorMask_eq origin line hN hl, ?_⟩
  constructor
  · intro h
    exact ⟨_, h⟩
  · intro h
    exact (Int.mul_tdiv_cancel' h).symm

/-- Witness of C5: a mask of six cells declared with `line = 2`. -/
theorem StructuralElement_size_invariant_witness :
    (([true, false, true, true, false, true] : List Bool).length < 2147483648 ∧ (2 : Int) ≠ 0) ∧
    (∃ se, StructuralElement.ctor = some se ∧ se.size = se.line * se.row) ∧
    ∃ se, StructuralElement.ctorMask [true, false, true, true, false, true] 2 = some se ∧
      (se.size = se.line * se.row ↔
        (2 : Int) ∣ (([true, false, true, true, false, true] : List Bool).length : Int)) :=
  ⟨⟨by decide, by decide⟩,
    StructuralElement_size_invariant [true, false, true, true, false, true] 2
      (by decide) (by decide)⟩

/-- C5 (as stated) fails for a mask of ten cells declared with `line = 3`: the element has
size 10, line 3, row 3. -/
theorem StructuralElement_size_invariant_counterexample :
    ∃ se, StructuralElement.ctorMask (List.replicate 10 true) 3 = some se ∧
      se.size ≠ se.line * se.row :=
  ⟨_, rfl, by decide⟩

/-- C6 (as amended): a mask of length `N < 2^31` declared with a `line ≠ 0` that does
not divide `N` is not rejected: the constructor yields the element with the mask copied,
`size = N`, the declared `line` and `row = N / line` (truncated), for which
`line * row ≠ size`. -/
theorem ctorMask_mismatch_accepted (origin : List Bool) (line : Int)
    (hN : origin.length < 2147483648) (hl : line ≠ 0)
    (hnd : ¬ line ∣ (origin.length : Int)) :
    ∃ se, StructuralElement.ctorMask origin line = some se ∧ se.data = origin ∧
      se.size = origin.length ∧ se.line = line ∧
      se.row = Int.tdiv origin.length line ∧ se.line * se.row ≠ se.size := by
  refine ⟨_, ctorMask_eq origin line hN hl, rfl, rfl, rfl, rfl, ?_⟩
  intro h
  exact hnd ⟨_, h.symm⟩

/-- Witness of C6: ten cells declared with `line = 3`. -/
theorem ctorMask_mismatch_accepted_witness :
    ((List.replicate 10 true).length < 2147483648 ∧ (3 : Int) ≠ 0 ∧
      ¬ (3 : Int) ∣ ((List.replicate 10 true).length : Int)) ∧
    ∃ se, StructuralElement.ctorMask (List.replicate 10 true) 3 = some se ∧
      se.data = List.replicate 10 true ∧
      se.size = ((List.replicate 10 true).length : Int) ∧ se.line = 3 ∧
      se.row = Int.tdiv ((List.replicate 10 true).length : Int) 3 ∧
      se.line * se.row ≠ se.size :=
  ⟨⟨by decide, by decide, by decide⟩,
    ctorMask_mismatch_accepted (List.replicate 10 true) 3 (by decide) (by decide) (by decide)⟩

/-- C6 (as stated) fails: ten cells declared with `line = 3` produce an element. -/
theorem ctorMask_mismatch_counterexample :
    StructuralElement.ctorMask (List.replicate 10 true) 3
      = some (StructuralElement.mk (List.replicate 10 true) 10 3 3) := by
  decide

/-- C7 (as amended): a mask of length `N < 2^31` declared with a negative `line` is not
rejected: the constructor yields the element with the mask copied, `size = N`, the declared
negative `line` and `row = N / line` (truncated), which is not positive. -/
theorem ctorMask_negative_line_accepted (origin : List Bool) (line : Int)
    (hN : origin.length < 2147483648) (hl : line < 0) :
    ∃ se, StructuralElement.ctorMask origin line = some se ∧ se.data = origin ∧
      se.size = origin.length ∧ se.line = line ∧ se.line < 0 ∧
      se.row = Int.tdiv origin.length line ∧ se.row ≤ 0 := by
  refine ⟨_, ctorMask_eq origin line hN (by omega), rfl, rfl, rfl, hl, rfl, ?_⟩
  exact Int.tdiv_nonpos (by omega) (by omega)

/-- Witness of C7: six cells declared with `line = -2`. -/
theorem ctorMask_negative_line_accepted_witness :
    (([true, false, true, true, false, true] : List Bool).length < 2147483648 ∧ (-2 : Int) < 0) ∧
    ∃ se, StructuralElement.ctorMask [true, false, true, true, false, true] (-2) = some se ∧
      se.data = [true, false, true, true, false, true] ∧
      se.size = (([true, false, true, true, false, true] : List Bool).length : Int) ∧
      se.line = -2 ∧ se.line < 0 ∧
      se.row = Int.tdiv (([true, false, true, true, false, true] : List Bool).length : Int) (-2) ∧
      se.row ≤ 0 :=
  ⟨⟨by decide, by decide⟩,
    ctorMask_negative_line_accepted [true, false, true, true, false, true] (-2)
      (by decide) (by decide)⟩

/-- C7 (as stated) fails: six cells declared with `line = -2` produce an element, of line
`-2` and row `-3`. -/
theorem ctorMask_negative_line_counterexample :
    StructuralElement.ctorMask [true, false, true, true, false, true] (-2)
      = some (StructuralElement.mk [true, false, true, true, false, true] 6 (-2) (-3)) := by
  decide

/-- C8: the default-constructed `StructuralElement`, which is also the default argument of
the `process` calls of `MatMorph`, `Opening` and `Closing`, has size 9, line 3, row 3 and
nine mask entries, all true. -/
theorem StructuralElement_default :
    StructuralElement.ctor = some (StructuralElement.mk
      [true, true, true, true, true, true, true, true, true] 9 3 3) ∧
    MatMorph.process_Matrix = StructuralElement.ctor ∧
    Opening.process_Matrix = StructuralElement.ctor ∧
    Closing.process_Matrix = StructuralElement.ctor := by
  decide

/-- C9: for every radius `r` with `2r+1` and `(2r+1)^2` below `2^64`, every `Kernel` that
`Kernel(r)` produces reports `getRadius() = r` and `getSize() = 2r+1` and its weight array
has exactly `(2r+1)^2` entries; the size of every kernel is odd and at least 1.  `Kernel(r)`
produces a kernel for every `r ≤ 32767`; it produces none when the array would exceed
`PTRDIFF_MAX` bytes, as at `r = 2^31 - 1`. -/
theorem Kernel_dimensions {F : Type} [Zero F] (r : Nat) :
    (∀ k : Kernel F, k.getSize % 2 = 1 ∧ 1 ≤ k.getSize) ∧
    (2 * r + 1 < 2 ^ 64 → (2 * r + 1) ^ 2 < 2 ^ 64 →
      ∀ k : Kernel F, Kernel.ctor r = some k →
        k.getRadius = r ∧ k.getSize = 2 * r + 1 ∧ k.data.length = (2 * r + 1) ^ 2) ∧
    (r ≤ 32767 → ∃ k : Kernel F, Kernel.ctor r = some k) ∧
    (Kernel.ctor 2147483647 : Option (Kernel F)) = none := by
  refine ⟨?_, ?_, fun h => ⟨_, ctor_eq r (alloc_of_le r (by omega))⟩, ?_⟩
  · intro k
    have hodd := getSize_odd k
    exact ⟨hodd, by omega⟩
  · intro h1 h2 k hk
    have hl : (Kernel.mk [] r : Kernel F).getLen = (2 * r + 1) ^ 2 := getLen_eq _ h2
    rw [(ctor_some r k hk).2]
    refine ⟨rfl, getSize_eq _ h1, ?_⟩
    simp [Kernel.zeroed, hl]
  · apply ctor_none
    have hl : (Kernel.zeroed 2147483647 : Kernel F).getLen = (2 * 2147483647 + 1) ^ 2 :=
      getLen_eq _ (by show (2 * 2147483647 + 1) ^ 2 < 2 ^ 64; norm_num)
    rw [hl]
    decide

/-- Witness of C9 at radius 1: the kernel is produced, with radius 1, size 3 and nine
entries. -/
theorem Kernel_dimensions_witness :
    (2 * 1 + 1 < 2 ^ 64 ∧ (2 * 1 + 1) ^ 2 < 2 ^ 64 ∧ 1 ≤ 32767) ∧
    ∃ k : Kernel ℚ, Kernel.ctor 1 = some k ∧ k.getRadius = 1 ∧ k.getSize = 2 * 1 + 1 ∧
      k.data.length = (2 * 1 + 1) ^ 2 :=
  ⟨⟨by norm_num, by norm_num, by norm_num⟩,
    ((Kernel_dimensions 1).2.2.1 (by norm_num)).elim (fun k hk =>
      ⟨k, hk, (Kernel_dimensions 1).2.1 (by norm_num) (by norm_num) k hk⟩)⟩

/-- C11: `SobelFilter` with its default radius 1 holds as first kernel the Sobel-X weights
`[-1,-2,-1, 0,0,0, 1,2,1]` and as second kernel the Sobel-Y weights
`[-1,0,1, -2,0,2, -1,0,1]`, each of radius 1 and length 9. -/
theorem SobelFilter_default_kernels :
    SobelFilter.radius_default = 1 ∧
    ∃ f : MatrixFilter ℚ, SobelFilter.default = some f ∧
      f.mKernel.data = [-1, -2, -1, 0, 0, 0, 1, 2, 1] ∧
      f.mKernel.getRadius = 1 ∧ f.mKernel.data.length = 9 ∧
      f.mKernel2.data = [-1, 0, 1, -2, 0, 2, -1, 0, 1] ∧
      f.mKernel2.getRadius = 1 ∧ f.mKernel2.data.length = 9 := by
  refine ⟨rfl, MatrixFilter.mk (Kernel.mk [-1, -2, -1, 0, 0, 0, 1, 2, 1] 1)
    (Kernel.mk [-1, 0, 1, -2, 0, 2, -1, 0, 1] 1), ?_, rfl, rfl, rfl, rfl, rfl, rfl⟩
  simp only [SobelFilter.default, SobelFilter.radius_default, SobelFilter, SobelXKernel_one,
    SobelYKernel_one, Option.bind_eq_bind, Option.some_bind]
  exact ctor2_eq _ _ (@getLen_zeroed_one ℚ _).symm (@getLen_zeroed_one ℚ _).symm

/-- C12: the kernels held by the default-constructed `SharpnessFilter`,
`NewSharpnessFilter` and `EmbossingFilter` have radius 1 and the weights
`[0,-1,0, -1,5,-1, 0,-1,0]`, `[-1,-1,-1, -1,9,-1, -1,-1,-1]` and `[0,1,0, 1,0,-1, 0,-1,0]`. -/
theorem sharpen_emboss_default_kernels :
    (∃ f : MatrixFilter ℚ, SharpnessFilter.default = some f ∧
      f.mKernel.getRadius = 1 ∧ f.mKernel.data = [0, -1, 0, -1, 5, -1, 0, -1, 0] ∧
      f.mKernel2.getRadius = 1 ∧ f.mKernel2.data = [0, -1, 0, -1, 5, -1, 0, -1, 0]) ∧
    (∃ f : MatrixFilter ℚ, NewSharpnessFilter.default = some f ∧
      f.mKernel.getRadius = 1 ∧ f.mKernel.data = [-1, -1, -1, -1, 9, -1, -1, -1, -1] ∧
      f.mKernel2.getRadius = 1 ∧ f.mKernel2.data = [-1, -1, -1, -1, 9, -1, -1, -1, -1]) ∧
    (∃ f : MatrixFilter ℚ, EmbossingFilter.default = some f ∧
      f.mKernel.getRadius = 1 ∧ f.mKernel.data = [0, 1, 0, 1, 0, -1, 0, -1, 0] ∧
      f.mKernel2.getRadius = 1 ∧ f.mKernel2.data = [0, 1, 0, 1, 0, -1, 0, -1, 0]) := by
  refine ⟨⟨MatrixFilter.mk (Kernel.mk _ 1) (Kernel.mk _ 1), ?_, rfl, rfl, rfl, rfl⟩,
    ⟨MatrixFilter.mk (Kernel.mk _ 1) (Kernel.mk _ 1), ?_, rfl, rfl, rfl, rfl⟩,
    ⟨MatrixFilter.mk (Kernel.mk _ 1) (Kernel.mk _ 1), ?_, rfl, rfl, rfl, rfl⟩⟩
  · simp only [SharpnessFilter.default, SharpnessFilter.radius_default, SharpnessFilter,
      SharpnessKernel_one, Option.bind_eq_bind, Option.some_bind]
    exact ctor1_eq _ (@getLen_zeroed_one ℚ _).symm
  · simp only [NewSharpnessFilter.default, NewSharpnessFilter.radius_default,
      NewSharpnessFilter, NewSharpnessKernel_one, Option.bind_eq_bind, Option.some_bind]
    exact ctor1_eq _ (@getLen_zeroed_one ℚ _).symm
  · simp only [EmbossingFilter.default, EmbossingFilter.radius_default, EmbossingFilter,
      EmbossingKernel_one, Option.bind_eq_bind, Option.some_bind]
    exact ctor1_eq _ (@getLen_zeroed_one ℚ _).symm

/-- C13: for every constant `v`, the weighted sum over a 3x3 window whose nine samples all
equal `v` is 0 with the radius-1 Sobel-X kernel and 0 with the radius-1 Sobel-Y kernel, the
two kernels of the default `SobelFilter`; the combined magnitude
`sqrt(response1^2 + response2^2)` is therefore 0. -/
theorem Sobel_uniform_zero (v : ℝ) :
    ∃ f : MatrixFilter ℝ, SobelFilter.default = some f ∧
      SobelXKernel 1 = some f.mKernel ∧ SobelYKernel 1 = some f.mKernel2 ∧
      weightedSum f.mKernel.data (List.replicate 9 v) = 0 ∧
      weightedSum f.mKernel2.data (List.replicate 9 v) = 0 ∧
      magnitude Real.sqrt (weightedSum f.mKernel.data (List.replicate 9 v))
        (weightedSum f.mKernel2.data (List.replicate 9 v)) = 0 := by
  have hx : weightedSum ([-1, -2, -1, 0, 0, 0, 1, 2, 1] : List ℝ) (List.replicate 9 v) = 0 := by
    simp [weightedSum, List.replicate]
  have hy : weightedSum ([-1, 0, 1, -2, 0, 2, -1, 0, 1] : List ℝ) (List.replicate 9 v) = 0 := by
    simp [weightedSum, List.replicate]
  refine ⟨MatrixFilter.mk (Kernel.mk [-1, -2, -1, 0, 0, 0, 1, 2, 1] 1)
    (Kernel.mk [-1, 0, 1, -2, 0, 2, -1, 0, 1] 1), ?_, SobelXKernel_one, SobelYKernel_one,
    hx, hy, ?_⟩
  · simp only [SobelFilter.default, SobelFilter.radius_default, SobelFilter, SobelXKernel_one,
      SobelYKernel_one, Option.bind_eq_bind, Option.some_bind]
    exact ctor2_eq _ _ (@getLen_zeroed_one ℝ _).symm (@getLen_zeroed_one ℝ _).symm
  · simp only [hx, hy, magnitude]
    simp

/-- C14: every kernel-radius filter constructed without arguments (`BlurFilter`,
`GaussianFilter`, `SharpnessFilter`, `NewSharpnessFilter`, `EmbossingFilter`,
`SobelXFilter`, `SobelYFilter`, `SobelFilter`) holds kernels of radius 1, and the kernel of
the default `GaussianFilter` is `GaussianKernel(1, 3.0)`. -/
theorem default_filters_radius_one :
    (∃ f : MatrixFilter ℚ, BlurFilter.default = some f ∧
      f.mKernel.getRadius = 1 ∧ f.mKernel2.getRadius = 1) ∧
    (∃ f : MatrixFilter ℝ, GaussianFilter.default Real.exp = some f ∧
      f.mKernel.getRadius = 1 ∧ f.mKernel2.getRadius = 1 ∧
      GaussianKernel Real.exp 1 3 = some f.mKernel ∧
      GaussianKernel Real.exp 1 3 = some f.mKernel2) ∧
    (∃ f : MatrixFilter ℚ, SharpnessFilter.default = some f ∧
      f.mKernel.getRadius = 1 ∧ f.mKernel2.getRadius = 1) ∧
    (∃ f : MatrixFilter ℚ, NewSharpnessFilter.default = some f ∧
      f.mKernel.getRadius = 1 ∧ f.mKernel2.getRadius = 1) ∧
    (∃ f : MatrixFilter ℚ, EmbossingFilter.default = some f ∧
      f.mKernel.getRadius = 1 ∧ f.mKernel2.getRadius = 1) ∧
    (∃ f : MatrixFilter ℚ, SobelXFilter.default = some f ∧
      f.mKernel.getRadius = 1 ∧ f.mKernel2.getRadius = 1) ∧
    (∃ f : MatrixFilter ℚ, SobelYFilter.default = some f ∧
      f.mKernel.getRadius = 1 ∧ f.mKernel2.getRadius = 1) ∧
    (∃ f : MatrixFilter ℚ, SobelFilter.default = some f ∧
      f.mKernel.getRadius = 1 ∧ f.mKernel2.getRadius = 1) := by
  have hg := GaussianKernel_eq Real.exp 1 3 (by norm_num) (by norm_num)
    (ne_of_gt (cell_sum_pos 1 3))
  refine ⟨?_, ?_, ?_, ?_, ?_, ?_, ?_, ?_⟩
  · simp only [BlurFilter.default, BlurFilter.radius_default, BlurFilter,
      BlurKernel_eq 1 (alloc_of_le 1 (by norm_num)), Option.bind_eq_bind, Option.some_bind]
    exact ⟨_, ctor1_eq _ (BlurKernel_wellformed 1 _), rfl, rfl⟩
  · simp only [GaussianFilter.default, GaussianFilter.radius_default, GaussianFilter,
      GaussianKernel.sigma_default, hg, Option.bind_eq_bind, Option.some_bind]
    exact ⟨_, ctor1_eq _ (GaussianKernel_wellformed 1 (by norm_num) _), rfl, rfl, rfl, rfl⟩
  · simp only [SharpnessFilter.default, SharpnessFilter.radius_default, SharpnessFilter,
      SharpnessKernel_one, Option.bind_eq_bind, Option.some_bind]
    exact ⟨_, ctor1_eq _ (@getLen_zeroed_one ℚ _).symm, rfl, rfl⟩
  · simp only [NewSharpnessFilter.default, NewSharpnessFilter.radius_default,
      NewSharpnessFilter, NewSharpnessKernel_one, Option.bind_eq_bind, Option.some_bind]
    exact ⟨_, ctor1_eq _ (@getLen_zeroed_one ℚ _).symm, rfl, rfl⟩
  · simp only [EmbossingFilter.default, EmbossingFilter.radius_default, EmbossingFilter,
      EmbossingKernel_one, Option.bind_eq_bind, Option.some_bind]
    exact ⟨_, ctor1_eq _ (@getLen_zeroed_one ℚ _).symm, rfl, rfl⟩
  · simp only [SobelXFilter.default, SobelXFilter.radius_default, SobelXFilter,
      SobelXKernel_one, Option.bind_eq_bind, Option.some_bind]
    exact ⟨_, ctor1_eq _ (@getLen_zeroed_one ℚ _).symm, rfl, rfl⟩
  · simp only [SobelYFilter.default, SobelYFilter.radius_default, SobelYFilter,
      SobelYKernel_one, Option.bind_eq_bind, Option.some_bind]
    exact ⟨_, ctor1_eq _ (@getLen_zeroed_one ℚ _).symm, rfl, rfl⟩
  · simp only [SobelFilter.default, SobelFilter.radius_default, SobelFilter, SobelXKernel_one,
      SobelYKernel_one, Option.bind_eq_bind, Option.some_bind]
    exact ⟨_, ctor2_eq _ _ (@getLen_zeroed_one ℚ _).symm (@getLen_zeroed_one ℚ _).symm, rfl, rfl⟩

/-- C15 (as amended): constructed without arguments, `BlurKernel`, `GaussianKernel`,
`SharpnessKernel`, `NewSharpnessKernel` and `EmbossingKernel` have radius 2, size 5 and 25
weights; `SobelXKernel` and `SobelYKernel` have radius 1, size 3 and nine weights. -/
theorem default_kernels_dimensions :
    (∃ k : Kernel ℚ, BlurKernel.default = some k ∧
      k.getRadius = 2 ∧ k.getSize = 5 ∧ k.data.length = 25) ∧
    (∃ k : Kernel ℝ, GaussianKernel.default Real.exp = some k ∧
      k.getRadius = 2 ∧ k.getSize = 5 ∧ k.data.length = 25) ∧
    (∃ k : Kernel ℚ, SharpnessKernel.default = some k ∧
      k.getRadius = 2 ∧ k.getSize = 5 ∧ k.data.length = 25) ∧
    (∃ k : Kernel ℚ, NewSharpnessKernel.default = some k ∧
      k.getRadius = 2 ∧ k.getSize = 5 ∧ k.data.length = 25) ∧
    (∃ k : Kernel ℚ, EmbossingKernel.default = some k ∧
      k.getRadius = 2 ∧ k.getSize = 5 ∧ k.data.length = 25) ∧
    (∃ k : Kernel ℚ, SobelXKernel.default = some k ∧
      k.getRadius = 1 ∧ k.getSize = 3 ∧ k.data.length = 9) ∧
    (∃ k : Kernel ℚ, SobelYKernel.default = some k ∧
      k.getRadius = 1 ∧ k.getSize = 3 ∧ k.data.length = 9) := by
  have h2 : (Kernel.zeroed 2 : Kernel ℚ).getLen = 25 := getLen_zeroed_two
  have hs2 : ∀ (F : Type) (l : List F), (Kernel.mk l 2).getSize = 5 := fun F l =>
    getSize_eq (Kernel.mk l 2) (by norm_num)
  have hs1 : ∀ (F : Type) (l : List F), (Kernel.mk l 1).getSize = 3 := fun F l =>
    getSize_eq (Kernel.mk l 1) (by norm_num)
  have ha : 4 * (Kernel.zeroed 2 : Kernel ℚ).getLen ≤ PTRDIFF_MAX :=
    alloc_of_le 2 (by norm_num)
  refine ⟨⟨_, BlurKernel_eq 2 ha, rfl, hs2 _ _, ?_⟩,
    ⟨_, GaussianKernel_eq Real.exp 2 3 (by norm_num) (by norm_num)
      (ne_of_gt (cell_sum_pos 2 3)), rfl, hs2 _ _, ?_⟩,
    ⟨_, SharpnessKernel_eq 2 ha (by rw [h2]; norm_num), rfl, hs2 _ _, ?_⟩,
    ⟨_, NewSharpnessKernel_eq 2 ha (by rw [h2]; norm_num), rfl, hs2 _ _, ?_⟩,
    ⟨_, EmbossingKernel_eq 2 ha (by rw [h2]; norm_num), rfl, hs2 _ _, ?_⟩,
    ⟨_, SobelXKernel_one, rfl, hs1 _ _, rfl⟩,
    ⟨_, SobelYKernel_one, rfl, hs1 _ _, rfl⟩⟩
  · simp [h2]
  · simp
  · simp [h2]
  · simp [h2]
  · simp [h2]

/-- C15 (as stated) fails: the default-constructed `BlurKernel` has radius 2 and 25 weights,
not radius 1 and nine weights. -/
theorem default_kernels_dimensions_counterexample :
    ∃ k : Kernel ℚ, BlurKernel.default = some k ∧ k.getRadius ≠ 1 ∧ k.data.length ≠ 9 := by
  have h2 : (Kernel.zeroed 2 : Kernel ℚ).getLen = 25 := getLen_zeroed_two
  refine ⟨_, BlurKernel_eq 2 (alloc_of_le 2 (by norm_num)), by decide, ?_⟩
  simp [h2]

/-- C16 (as amended): for a radius `r` with `(2r+1)^2 < 2^64` whose weight array `Kernel(r)`
allocates, the nine writes to flat indices 0..8 of each fixed-table constructor
(`SharpnessKernel`, `NewSharpnessKernel`, `EmbossingKernel`, `SobelXKernel`, `SobelYKernel`)
all fall inside the array if and only if `r ≥ 1`, and a constructor that completes has
`r ≥ 1`; for every `r ≤ 32767` the array is allocated and each constructor completes if and
only if `r ≥ 1`; at radius 0 the array has length 1 and the writes to indices 1..8 are out
of range. -/
theorem table_writes_in_range (r : Nat) (hb : (2 * r + 1) ^ 2 < 2 ^ 64) :
    (∀ self : Kernel ℚ, Kernel.ctor r = some self →
      ((∀ i, i < 9 → i < self.data.length) ↔ 1 ≤ r)) ∧
    ((SharpnessKernel r : Option (Kernel ℚ)).isSome = true → 1 ≤ r) ∧
    ((NewSharpnessKernel r : Option (Kernel ℚ)).isSome = true → 1 ≤ r) ∧
    ((EmbossingKernel r : Option (Kernel ℚ)).isSome = true → 1 ≤ r) ∧
    ((SobelXKernel r : Option (Kernel ℚ)).isSome = true → 1 ≤ r) ∧
    ((SobelYKernel r : Option (Kernel ℚ)).isSome = true → 1 ≤ r) ∧
    (r ≤ 32767 →
      (Kernel.ctor r : Option (Kernel ℚ)).isSome = true ∧
      ((SharpnessKernel r : Option (Kernel ℚ)).isSome = true ↔ 1 ≤ r) ∧
      ((NewSharpnessKernel r : Option (Kernel ℚ)).isSome = true ↔ 1 ≤ r) ∧
      ((EmbossingKernel r : Option (Kernel ℚ)).isSome = true ↔ 1 ≤ r) ∧
      ((SobelXKernel r : Option (Kernel ℚ)).isSome = true ↔ 1 ≤ r) ∧
      ((SobelYKernel r : Option (Kernel ℚ)).isSome = true ↔ 1 ≤ r)) ∧
    ∃ self : Kernel ℚ, Kernel.ctor 0 = some self ∧ self.data.length = 1 ∧
      ∀ (i : Nat) (v : ℚ), 1 ≤ i → i ≤ 8 → store self.data i v = none := by
  have hlen : (Kernel.zeroed r : Kernel ℚ).data.length = (2 * r + 1) ^ 2 := by
    rw [zeroed_data, List.length_replicate, getLen_zeroed r hb]
  have hlen0 : (Kernel.zeroed 0 : Kernel ℚ).data.length = 1 := by
    rw [zeroed_data, List.length_replicate, getLen_zeroed_zero]
  have hnec : ∀ K : Nat → Option (Kernel ℚ),
      ((Kernel.zeroed r : Kernel ℚ).getLen = 1 → K r = none) →
      ((K r).isSome = true → 1 ≤ r) := by
    intro K h2 hs
    by_contra hr
    have hr0 : r = 0 := by omega
    have hn := h2 (by rw [hr0]; exact getLen_zeroed_zero)
    rw [hn] at hs
    exact Bool.noConfusion hs
  have hcase : ∀ K : Nat → Option (Kernel ℚ),
      (9 ≤ (Kernel.zeroed r : Kernel ℚ).getLen → (K r).isSome = true) →
      ((Kernel.zeroed r : Kernel ℚ).getLen = 1 → K r = none) →
      ((K r).isSome = true ↔ 1 ≤ r) := by
    intro K h1 h2
    exact ⟨hnec K h2, fun hr => h1 (nine_le_getLen r hr hb)⟩
  refine ⟨?_, ?_, ?_, ?_, ?_, ?_, ?_, _, ctor_eq 0 (alloc_of_le 0 (by norm_num)), hlen0, ?_⟩
  · intro self hself
    rw [(ctor_some r self hself).2, hlen]
    constructor
    · intro h
      by_contra hr
      have hr0 : r = 0 := by omega
      have := h 1 (by norm_num)
      rw [hr0] at this
      norm_num at this
    · intro hr i hi
      have : 9 ≤ (2 * r + 1) ^ 2 := by nlinarith
      omega
  · exact hnec (fun r => SharpnessKernel r) (fun h => SharpnessKernel_none r h)
  · exact hnec (fun r => NewSharpnessKernel r) (fun h => NewSharpnessKernel_none r h)
  · exact hnec (fun r => EmbossingKernel r) (fun h => EmbossingKernel_none r h)
  · exact hnec (fun r => SobelXKernel r) (fun h => SobelXKernel_none r h)
  · exact hnec (fun r => SobelYKernel r) (fun h => SobelYKernel_none r h)
  · intro hr
    have ha : 4 * (Kernel.zeroed r : Kernel ℚ).getLen ≤ PTRDIFF_MAX :=
      alloc_of_le r (by omega)
    refine ⟨by rw [ctor_eq r ha]; rfl, ?_, ?_, ?_, ?_, ?_⟩
    · exact hcase (fun r => SharpnessKernel r) (fun h => by simp [SharpnessKernel_eq r ha h])
        (fun h => SharpnessKernel_none r h)
    · exact hcase (fun r => NewSharpnessKernel r)
        (fun h => by simp [NewSharpnessKernel_eq r ha h]) (fun h => NewSharpnessKernel_none r h)
    · exact hcase (fun r => EmbossingKernel r) (fun h => by simp [EmbossingKernel_eq r ha h])
        (fun h => EmbossingKernel_none r h)
    · exact hcase (fun r => SobelXKernel r) (fun h => by simp [SobelXKernel_eq r ha h])
        (fun h => SobelXKernel_none r h)
    · exact hcase (fun r => SobelYKernel r) (fun h => by simp [SobelYKernel_eq r ha h])
        (fun h => SobelYKernel_none r h)
  · intro i v h1 h8
    simp only [store, hlen0]
    rw [if_neg (by omega)]

/-- Witness of C16 at radius 1: the array is allocated, holds the nine indices, and the
five constructors complete. -/
theorem table_writes_in_range_witness :
    ((2 * 1 + 1) ^ 2 < 2 ^ 64 ∧ 1 ≤ 32767 ∧ 1 ≤ 1) ∧
    (∃ self : Kernel ℚ, Kernel.ctor 1 = some self ∧ ∀ i, i < 9 → i < self.data.length) ∧
    (SharpnessKernel 1 : Option (Kernel ℚ)).isSome = true ∧
    (NewSharpnessKernel 1 : Option (Kernel ℚ)).isSome = true ∧
    (EmbossingKernel 1 : Option (Kernel ℚ)).isSome = true ∧
    (SobelXKernel 1 : Option (Kernel ℚ)).isSome = true ∧
    (SobelYKernel 1 : Option (Kernel ℚ)).isSome = true :=
  have h := table_writes_in_range 1 (by norm_num)
  have h2 := h.2.2.2.2.2.2.1 (by norm_num)
  ⟨⟨by norm_num, by norm_num, by norm_num⟩,
    ⟨Kernel.zeroed 1, ctor_eq 1 (alloc_of_le 1 (by norm_num)),
      (h.1 (Kernel.zeroed 1) (ctor_eq 1 (alloc_of_le 1 (by norm_num)))).2 (by norm_num)⟩,
    h2.2.1.2 (by norm_num), h2.2.2.1.2 (by norm_num), h2.2.2.2.1.2 (by norm_num),
    h2.2.2.2.2.1.2 (by norm_num), h2.2.2.2.2.2.2 (by norm_num)⟩

/-- C16 (as stated) fails at radius `2^63`: the radius is at least 1, yet `getLen()` wraps
to 1, so `Kernel(r)` allocates an array of length 1 and the write to index 1 is out of
range: no constructor completes. -/
theorem table_writes_in_range_counterexample :
    1 ≤ 9223372036854775808 ∧
    ∃ self : Kernel ℚ, Kernel.ctor 9223372036854775808 = some self ∧
      self.data.length = 1 ∧
      store self.data 1 (-1 : ℚ) = none ∧
      (SharpnessKernel 9223372036854775808 : Option (Kernel ℚ)) = none ∧
      (SobelXKernel 9223372036854775808 : Option (Kernel ℚ)) = none := by
  have hlen : (Kernel.zeroed 9223372036854775808 : Kernel ℚ).data.length = 1 := by
    rw [zeroed_data, List.length_replicate, getLen_zeroed_wrap]
  refine ⟨by norm_num, _, ctor_eq _ (by rw [getLen_zeroed_wrap]; decide), hlen, ?_,
    SharpnessKernel_none _ getLen_zeroed_wrap, SobelXKernel_none _ getLen_zeroed_wrap⟩
  simp only [store, hlen]
  rw [if_neg (by omega)]

/-- C17 (as amended): for every radius `r ≥ 2` with `(2r+1)^2 < 2^64`, every fixed-table
kernel that its constructor produces (`SharpnessKernel(r)` and its four siblings) has size
`2r+1` and `(2r+1)^2` weights, the nine table values at flat indices 0..8 and 0 in every
other cell, in particular in the centre cell `r*(2r+1)+r`; the constructors produce the
kernel for every `r ≤ 32767`, and this holds for the default-constructed `SharpnessKernel`,
whose radius is 2. -/
theorem table_kernel_layout (r : Nat) (hr : 2 ≤ r) (hb : (2 * r + 1) ^ 2 < 2 ^ 64) :
    (∀ k : Kernel ℚ, SharpnessKernel r = some k →
      tableLayout [0, -1, 0, -1, 5, -1, 0, -1, 0] r k) ∧
    (∀ k : Kernel ℚ, NewSharpnessKernel r = some k →
      tableLayout [-1, -1, -1, -1, 9, -1, -1, -1, -1] r k) ∧
    (∀ k : Kernel ℚ, EmbossingKernel r = some k →
      tableLayout [0, 1, 0, 1, 0, -1, 0, -1, 0] r k) ∧
    (∀ k : Kernel ℚ, SobelXKernel r = some k →
      tableLayout [-1, -2, -1, 0, 0, 0, 1, 2, 1] r k) ∧
    (∀ k : Kernel ℚ, SobelYKernel r = some k →
      tableLayout [-1, 0, 1, -2, 0, 2, -1, 0, 1] r k) ∧
    (r ≤ 32767 →
      (∃ k : Kernel ℚ, SharpnessKernel r = some k) ∧
      (∃ k : Kernel ℚ, NewSharpnessKernel r = some k) ∧
      (∃ k : Kernel ℚ, EmbossingKernel r = some k) ∧
      (∃ k : Kernel ℚ, SobelXKernel r = some k) ∧
      (∃ k : Kernel ℚ, SobelYKernel r = some k)) ∧
    SharpnessKernel.radius_default = 2 ∧
    (∃ k : Kernel ℚ, SharpnessKernel.default = some k ∧
      tableLayout [0, -1, 0, -1, 5, -1, 0, -1, 0] 2 k) := by
  have h9 := @nine_le_getLen ℚ _ r (by omega) hb
  have h92 := @nine_le_getLen ℚ _ 2 (by norm_num) (by norm_num)
  refine ⟨?_, ?_, ?_, ?_, ?_, ?_, rfl,
    ⟨_, SharpnessKernel_eq 2 (alloc_of_le 2 (by norm_num)) h92,
      table_layout ([0, -1, 0, -1, 5, -1, 0, -1, 0] : List ℚ) rfl 2 (by norm_num)
        (by norm_num)⟩⟩
  · intro k hk
    rw [SharpnessKernel_some r k h9 hk]
    exact table_layout ([0, -1, 0, -1, 5, -1, 0, -1, 0] : List ℚ) rfl r hr hb
  · intro k hk
    rw [NewSharpnessKernel_some r k h9 hk]
    exact table_layout ([-1, -1, -1, -1, 9, -1, -1, -1, -1] : List ℚ) rfl r hr hb
  · intro k hk
    rw [EmbossingKernel_some r k h9 hk]
    exact table_layout ([0, 1, 0, 1, 0, -1, 0, -1, 0] : List ℚ) rfl r hr hb
  · intro k hk
    rw [SobelXKernel_some r k h9 hk]
    exact table_layout ([-1, -2, -1, 0, 0, 0, 1, 2, 1] : List ℚ) rfl r hr hb
  · intro k hk
    rw [SobelYKernel_some r k h9 hk]
    exact table_layout ([-1, 0, 1, -2, 0, 2, -1, 0, 1] : List ℚ) rfl r hr hb
  · intro h
    have ha : 4 * (Kernel.zeroed r : Kernel ℚ).getLen ≤ PTRDIFF_MAX :=
      alloc_of_le r (by omega)
    exact ⟨⟨_, SharpnessKernel_eq r ha h9⟩, ⟨_, NewSharpnessKernel_eq r ha h9⟩,
      ⟨_, EmbossingKernel_eq r ha h9⟩, ⟨_, SobelXKernel_eq r ha h9⟩,
      ⟨_, SobelYKernel_eq r ha h9⟩⟩

/-- Witness of C17 at radius 2: `SharpnessKernel(2)` is produced and has the layout. -/
theorem table_kernel_layout_witness :
    (2 ≤ 2 ∧ (2 * 2 + 1) ^ 2 < 2 ^ 64 ∧ 2 ≤ 32767) ∧
    ∃ k : Kernel ℚ, SharpnessKernel 2 = some k ∧
      tableLayout [0, -1, 0, -1, 5, -1, 0, -1, 0] 2 k :=
  ⟨⟨by norm_num, by norm_num, by norm_num⟩,
    ((table_kernel_layout 2 (by norm_num) (by norm_num)).2.2.2.2.2.1 (by norm_num)).1.elim
      (fun k hk => ⟨k, hk, (table_kernel_layout 2 (by norm_num) (by norm_num)).1 k hk⟩)⟩

/-- C17 (as stated) fails at radius `2^63 + 1`: `2r+1` wraps to 3, so `SharpnessKernel(r)` is
exactly the nine table values, its size is 3 and not `2r+1`, the centre index
`r*(2r+1)+r` is outside the array, and reduced modulo `2^64` it is 4, where the weight is 5. -/
theorem table_kernel_layout_counterexample :
    2 ≤ 9223372036854775809 ∧
    ∃ k : Kernel ℚ, SharpnessKernel 9223372036854775809 = some k ∧
      k.data = [0, -1, 0, -1, 5, -1, 0, -1, 0] ∧
      k.getSize = 3 ∧ k.getSize ≠ 2 * 9223372036854775809 + 1 ∧
      k.data[9223372036854775809 * (2 * 9223372036854775809 + 1) + 9223372036854775809]?
        = none ∧
      szAdd (szMul 9223372036854775809 k.getSize) 9223372036854775809 = 4 ∧
      k.data[4]? = some 5 := by
  have hlen : (Kernel.zeroed 9223372036854775809 : Kernel ℚ).getLen = 9 := by
    show szMul (szAdd (szMul 2 9223372036854775809) 1)
      (szAdd (szMul 2 9223372036854775809) 1) = 9
    norm_num [szMul, szAdd, SIZE_MOD]
  have hsize : ∀ l : List ℚ, (Kernel.mk l 9223372036854775809).getSize = 3 := by
    intro l
    show szAdd (szMul 2 9223372036854775809) 1 = 3
    norm_num [szMul, szAdd, SIZE_MOD]
  refine ⟨by norm_num, _, SharpnessKernel_eq _ (by rw [hlen]; decide) (by rw [hlen]), ?_,
    hsize _, ?_, ?_, ?_, ?_⟩
  · simp [hlen]
  · rw [hsize]; norm_num
  · simp [hlen]
  · rw [hsize]; norm_num [szMul, szAdd, SIZE_MOD]
  · simp [hlen]

/-- C18: copying a `Kernel` (an object whose array has its `getLen()` cells) yields a kernel
with the same radius and the same weight at every index, and a `MatrixFilter` constructed
from a single kernel `K` stores a first and a second kernel equal to `K` in radius and in
every weight. -/
theorem Kernel_copy_equal {F : Type} [Zero F] (K : Kernel F)
    (hK : K.data.length = K.getLen) :
    (∃ c : Kernel F, Kernel.copy K = some c ∧ c.getRadius = K.getRadius ∧
      ∀ i : Nat, c.data[i]? = K.data[i]?) ∧
    (∃ f : MatrixFilter F, MatrixFilter.ctor1 K = some f ∧
      f.mKernel.getRadius = K.getRadius ∧ (∀ i : Nat, f.mKernel.data[i]? = K.data[i]?) ∧
      f.mKernel2.getRadius = K.getRadius ∧ (∀ i : Nat, f.mKernel2.data[i]? = K.data[i]?)) :=
  ⟨⟨K, copy_eq K hK, rfl, fun _ => rfl⟩,
    ⟨MatrixFilter.mk K K, ctor1_eq K hK, rfl, fun _ => rfl, rfl, fun _ => rfl⟩⟩

/-- Witness of C18: a radius-1 kernel with the weights 1, .., 9. -/
theorem Kernel_copy_equal_witness :
    (Kernel.mk [1, 2, 3, 4, 5, 6, 7, 8, 9] 1 : Kernel ℚ).data.length
      = (Kernel.mk [1, 2, 3, 4, 5, 6, 7, 8, 9] 1 : Kernel ℚ).getLen ∧
    (∃ c : Kernel ℚ, Kernel.copy (Kernel.mk [1, 2, 3, 4, 5, 6, 7, 8, 9] 1) = some c ∧
      c.getRadius = (Kernel.mk [1, 2, 3, 4, 5, 6, 7, 8, 9] 1 : Kernel ℚ).getRadius ∧
      ∀ i : Nat, c.data[i]? = (Kernel.mk [1, 2, 3, 4, 5, 6, 7, 8, 9] 1 : Kernel ℚ).data[i]?) ∧
    (∃ f : MatrixFilter ℚ,
      MatrixFilter.ctor1 (Kernel.mk [1, 2, 3, 4, 5, 6, 7, 8, 9] 1) = some f ∧
      f.mKernel.getRadius = (Kernel.mk [1, 2, 3, 4, 5, 6, 7, 8, 9] 1 : Kernel ℚ).getRadius ∧
      (∀ i : Nat, f.mKernel.data[i]? = (Kernel.mk [1, 2, 3, 4, 5, 6, 7, 8, 9] 1 : Kernel ℚ).data[i]?) ∧
      f.mKernel2.getRadius = (Kernel.mk [1, 2, 3, 4, 5, 6, 7, 8, 9] 1 : Kernel ℚ).getRadius ∧
      (∀ i : Nat, f.mKernel2.data[i]?
        = (Kernel.mk [1, 2, 3, 4, 5, 6, 7, 8, 9] 1 : Kernel ℚ).data[i]?)) :=
  ⟨(@getLen_zeroed_one ℚ _).symm,
    Kernel_copy_equal (Kernel.mk [1, 2, 3, 4, 5, 6, 7, 8, 9] 1) (@getLen_zeroed_one ℚ _).symm⟩

/-- C20 (as amended): for every mask of length `N < 2^31` and every `line > 0` that divides
`N`, the mask constructor yields `size = N`, the given `line`, `row = N / line` with
`line * row = N`, and stored mask entries equal to the input entries at every index. -/
theorem ctorMask_dividing_line (origin : List Bool) (line : Int)
    (hN : origin.length < 2147483648) (hl : 0 < line) (hd : line ∣ (origin.length : Int)) :
    ∃ se, StructuralElement.ctorMask origin line = some se ∧
      se.size = origin.length ∧ se.line = line ∧ se.row = (origin.length : Int) / line ∧
      se.line * se.row = origin.length ∧
      ∀ i : Nat, i < origin.length → se.data[i]? = origin[i]? := by
  refine ⟨_, ctorMask_eq origin line hN (by omega), rfl, rfl, ?_, ?_, fun _ _ => rfl⟩
  · exact Int.tdiv_eq_ediv_of_dvd hd
  · exact Int.mul_tdiv_cancel' hd

/-- Witness of C20: six cells declared with `line = 2`. -/
theorem ctorMask_dividing_line_witness :
    (([true, false, true, true, false, true] : List Bool).length < 2147483648 ∧
      (0 : Int) < 2 ∧
      (2 : Int) ∣ (([true, false, true, true, false, true] : List Bool).length : Int)) ∧
    ∃ se, StructuralElement.ctorMask [true, false, true, true, false, true] 2 = some se ∧
      se.size = (([true, false, true, true, false, true] : List Bool).length : Int) ∧
      se.line = 2 ∧
      se.row = (([true, false, true, true, false, true] : List Bool).length : Int) / 2 ∧
      se.line * se.row = (([true, false, true, true, false, true] : List Bool).length : Int) ∧
      ∀ i : Nat, i < ([true, false, true, true, false, true] : List Bool).length →
        se.data[i]? = ([true, false, true, true, false, true] : List Bool)[i]? :=
  ⟨⟨by decide, by decide, by decide⟩,
    ctorMask_dividing_line [true, false, true, true, false, true] 2 (by decide) (by decide)
      (by decide)⟩

/-- C20 (as stated) fails for a mask of `2^31` cells declared with `line = 1`: `size = N`
converts `2^31` to the `int` `-2^31`, and `make_unique<bool[]>(size)` cannot allocate; no
element with `size = N` results. -/
theorem ctorMask_dividing_line_counterexample :
    (1 : Int) ∣ ((List.replicate 2147483648 true).length : Int) ∧
    StructuralElement.ctorMask (List.replicate 2147483648 true) 1 = none :=
  ⟨one_dvd _, ctorMask_huge _ (List.length_replicate _ _)⟩

end Filters
